import Mathlib

/-!
# Citra HLE services: FRD and PTM handlers, and the control panel

A shallow embedding of

* `src/core/hle/service/frd/frd.cpp`  (friend service handlers),
* `src/core/hle/service/ptm/ptm.cpp`  (power/pedometer service handlers),
* `src/citra_qt/control_panel.cpp`    (settings panel writing the shared page).

Machine integers are natural numbers reduced modulo `2 ^ w`.  The command
buffer is a map from word index to word.  Guest memory is observed through the
ordered list of writes a handler issues.  A failed `ASSERT` stops the handler
at that statement.
-/

namespace Citra

/-! ## Machine integers -/

/-- Conversion to `u8`. -/
def u8 (n : Nat) : Nat := n % 2 ^ 8

/-- Conversion to `u16`. -/
def u16 (n : Nat) : Nat := n % 2 ^ 16

/-- Conversion to `u32`. -/
def u32 (n : Nat) : Nat := n % 2 ^ 32

/-- Conversion to `size_t`, 64 bits wide on the hosts the emulator is built for. -/
def size_t (n : Nat) : Nat := n % 2 ^ 64

/-- Conversion of a C++ `int` to `u32` (two's complement wrap-around). -/
def u32OfInt (i : Int) : Nat := (i % 2 ^ 32).toNat

/-- Conversion of a C++ `int` to `u8`. -/
def u8OfInt (i : Int) : Nat := (i % 2 ^ 8).toNat

/-- Conversion of a `bool` to an integer. -/
def boolToNat (b : Bool) : Nat := if b then 1 else 0

/-- Modelled from the spec: `RESULT_SUCCESS.raw` of `core/hle/result.h` (declared
elsewhere in the repository), the "zero/success sentinel" of the data model. -/
def RESULT_SUCCESS : Nat := 0

/-! ## Type sizes declared in headers that are not embedded -/

/-- The `sizeof` of the structures declared in `core/hle/service/frd/frd.h`, which is
not among the files embedded here: they are parameters of the handlers. -/
structure TypeSizes where
  /-- Value of `sizeof(FriendKey)`. -/
  FriendKey : Nat
  /-- Value of `sizeof(Profile)`. -/
  Profile : Nat
  /-- Value of `sizeof(MyPresence)`. -/
  MyPresence : Nat

/-! ## Faults, guest memory, command buffer -/

/-- The ways a handler can stop without returning. -/
inductive Fault where
  /-- A failed `ASSERT` / `ASSERT_MSG`, with its message. -/
  | AssertFailed (msg : String)
  /-- A parser cursor advance past the declared word counts (spec 4.2). -/
  | BufferOverrun
  deriving DecidableEq, Repr

/-- How a handler invocation ended. -/
inductive Status where
  /-- The handler ran to its end and returned to the dispatcher. -/
  | returned
  /-- The handler stopped at the given fault. -/
  | failed (f : Fault)
  deriving DecidableEq, Repr

/-- The source operand of a write to guest memory: what the handler copies from. -/
inductive WriteSource where
  /-- The element `friends[i]` of the friend list (`&friends[i]`). -/
  | friend (i : Nat)
  /-- The static `my_presence` (`&my_presence`). -/
  | my_presence
  /-- Zero bytes: a zero-initialised local (`zero_profile`, `result`, `steps_per_hour`) or
  the literal `0` of `Memory::Write8`. -/
  | zero
  deriving DecidableEq, Repr

/-- One write to guest memory: `Memory::WriteBlock(addr, src, len)`,
`Memory::Write8(addr, 0)` (`len = 1`) or a write through a mapped buffer. -/
structure MemWrite where
  /-- Guest virtual address (`VAddr`, 32 bits) of the first byte written. -/
  addr : Nat
  /-- Number of bytes written. -/
  len : Nat
  /-- What is written.  Every write of the two files stores zero bytes, except those of
  `GetMyPresence` and `GetFriendKeyList`, so zero is the value a record takes when the
  field is left out. -/
  src : WriteSource := WriteSource.zero
  deriving DecidableEq, Repr

/-- The command buffer: word index to word. -/
abbrev CmdBuf := Nat → Nat

/-- Read `cmd_buff[i]` as a `u32`. -/
def CmdBuf.rd (cmd : CmdBuf) (i : Nat) : Nat := u32 (cmd i)

/-- The assignment `cmd_buff[i] = v`. -/
def CmdBuf.wr (cmd : CmdBuf) (i v : Nat) : CmdBuf := Function.update cmd i (u32 v)

/-- Store one byte at byte offset `k` of the command buffer (little-endian words). -/
def CmdBuf.storeByte (cmd : CmdBuf) (k b : Nat) : CmdBuf :=
  let sh := 2 ^ (8 * (k % 4))
  let old := CmdBuf.rd cmd (k / 4)
  Function.update cmd (k / 4) (old - (old / sh % 256) * sh + u8 b * sh)

/-- The call `std::memcpy(&cmd_buff[word], src, n)`: byte `j` of the source object goes
to byte `4 * word + j` of the buffer. -/
def CmdBuf.memcpy (cmd : CmdBuf) (word : Nat) (src : Nat → Nat) (n : Nat) : CmdBuf :=
  (List.range n).foldl (fun c j => CmdBuf.storeByte c (4 * word + j) (src j)) cmd

/-- The call `str.copy(reinterpret_cast<char16_t*>(&cmd_buff[word]), count)` on a
`std::u16string`: the first `min count str.size()` code units are copied, each two bytes,
low byte first; no terminator is written. -/
def CmdBuf.copy16 (cmd : CmdBuf) (word : Nat) (str : List Nat) (count : Nat) : CmdBuf :=
  CmdBuf.memcpy cmd word
    (fun j => if j % 2 = 0 then u16 (str.getD (j / 2) 0) % 256 else u16 (str.getD (j / 2) 0) / 256)
    (2 * min count str.length)

/-- The loop `for (u32 i = lo; i < hi; ++i) body`, run with `n = hi - lo`: the
iterations are `i = lo, lo + 1, ...` and there are at most `hi - lo` of them.  The body
returns `none` for `break`. -/
def forLoop {σ : Type} (body : Nat → σ → Option σ) : Nat → Nat → σ → σ
  | 0, _, s => s
  | n + 1, i, s =>
    match body i s with
    | none => s
    | some s1 => forLoop body n (i + 1) s1

/-! ## Settings and module state -/

/-- The fields of `Settings::values` used by the control panel and by PTM. -/
structure Settings where
  p_adapter_connected : Bool
  p_battery_charging : Bool
  /-- Battery level, a `u32`. -/
  p_battery_level : Nat
  /-- The wifi status combo index, an `int`. -/
  n_wifi_status : Int
  /-- Wifi link level, a `u8`. -/
  n_wifi_link_level : Nat
  /-- Network state, a `u8`. -/
  n_state : Nat

/-- Everything a handler of `frd.cpp` or `ptm.cpp` reads or changes, apart from guest
memory: the command buffer, the module statics and the collaborators' answers. -/
structure World where
  /-- The command buffer, `Kernel::GetCommandBuffer()` or the one of the request context. -/
  cmd_buff : CmdBuf
  /-- The static `logged_in`, a `u8`. -/
  logged_in : Nat
  /-- Value of `friends.size()`. -/
  friends_size : Nat
  /-- Object representation of `my_friend_key`, byte by byte. -/
  my_friend_key : Nat → Nat
  /-- Object representation of `my_profile`. -/
  my_profile : Nat → Nat
  /-- The array `my_mii`. -/
  my_mii : Nat → Nat
  /-- The UTF-16 code units `Service::CFG::GetUsername()` returns. -/
  username : List Nat
  /-- Version last passed to `self->SetVersion`. -/
  version : Nat
  /-- The settings store, `Settings::values`. -/
  settings : Settings
  /-- The flag `ptm->shell_open`. -/
  shell_open : Bool
  /-- The flag `ptm->pedometer_is_counting`. -/
  pedometer_is_counting : Bool
  /-- What `Service::CFG::GetSystemModelID()` returns. -/
  system_model_id : Nat
  /-- The raw `ResultCode` that `Kernel::KernelSetState(type, value, 0, 0)` returns for
  `type = ConfigureNew3DSCPU`, as a function of `value`. -/
  kernel_set_state : Nat → Nat

/-! ## Request parser and request builder

`IPC::RequestParser`, `IPC::RequestBuilder` and the mapped-buffer handle live in
`core/hle/ipc_helpers.h` and `core/hle/ipc.h`, outside the files embedded here. -/

namespace IPC

/-- Modelled from the spec: descriptor decoding of section 6, "shift right 14 for
size" (the declaration, in `core/hle/ipc.h`, is not among the files embedded here). -/
def DescriptorSize (word : Nat) : Nat := u32 word >>> 14

/-- Modelled from the spec: descriptor decoding of section 6, "mask the low 14 bits
for the tag/permission". -/
def DescriptorTag (word : Nat) : Nat := u32 word &&& 0x3FFF

/-- Modelled from the spec: descriptor encoding of section 6, the descriptor word
`(size_bytes << 14) | tag` of a static (`tag = 2`) or mapped (`tag` = permission) buffer. -/
def EncodeDescriptor (size_bytes tag : Nat) : Nat := u32 ((size_bytes <<< 14) ||| tag)

/-- Modelled from the spec: the command header of section 6,
`(command_id << 16) | (normal_param_words << 6) | translate_param_words`. -/
def MakeHeader (command_id normal translate : Nat) : Nat :=
  u32 ((command_id <<< 16) ||| (normal <<< 6) ||| translate)

/-- Modelled from the spec: the handle `PopMappedBuffer` returns (section 4.2), "bound
to address/size/permission". -/
structure MappedBuffer where
  address : Nat
  size : Nat
  perms : Nat
  deriving DecidableEq, Repr

/-- Value of `buffer.GetSize()`. -/
def MappedBuffer.GetSize (b : MappedBuffer) : Nat := b.size

/-- The call `buffer.Write(src, offset, size)`: a write of `size` bytes at `offset` bytes
into the buffer.  The write is recorded as issued; which offsets a handler issues is what
the theorems below establish. -/
def MappedBuffer.Write (b : MappedBuffer) (src : WriteSource) (offset size : Nat) : MemWrite :=
  { addr := u32 (b.address + offset), len := size, src := src }

/-- Modelled from the spec: the request parser of section 4.2, a cursor over the command
buffer together with the word counts declared to its constructor and the words consumed
so far. -/
structure RequestParser where
  cmd_buf : CmdBuf
  command_id : Nat
  /-- Declared number of normal parameter words. -/
  normal_params : Nat
  /-- Declared number of translate parameter words. -/
  translate_params : Nat
  /-- The cursor: index of the next word to read. -/
  index : Nat
  /-- Normal words consumed so far. -/
  normal_popped : Nat
  /-- Translate words consumed so far. -/
  translate_popped : Nat

/-- The constructor `IPC::RequestParser rp(cmd_buf, command_id, normal, translate)`; the
cursor starts after the header word. -/
def RequestParser.new (cmd : CmdBuf) (command_id normal translate : Nat) : RequestParser :=
  { cmd_buf := cmd, command_id := command_id, normal_params := normal,
    translate_params := translate, index := 1, normal_popped := 0, translate_popped := 0 }

/-- Advance the cursor over `n` normal words; `BufferOverrun` when that exceeds the
declared normal word count. -/
def RequestParser.advanceNormal (rp : RequestParser) (n : Nat) : Except Fault RequestParser :=
  if rp.normal_popped + n ≤ rp.normal_params then
    .ok { rp with index := rp.index + n, normal_popped := rp.normal_popped + n }
  else .error Fault.BufferOverrun

/-- Advance the cursor over `n` translate words; `BufferOverrun` when that exceeds the
declared translate word count. -/
def RequestParser.advanceTranslate (rp : RequestParser) (n : Nat) :
    Except Fault RequestParser :=
  if rp.translate_popped + n ≤ rp.translate_params then
    .ok { rp with index := rp.index + n, translate_popped := rp.translate_popped + n }
  else .error Fault.BufferOverrun

/-- The call `rp.Pop<u32>()`: one word. -/
def RequestParser.PopU32 (rp : RequestParser) : Except Fault (Nat × RequestParser) :=
  (rp.advanceNormal 1).map (fun rp1 => (rp.cmd_buf.rd rp.index, rp1))

/-- The call `rp.Pop<u8>()`: one word, of which the low byte is the value. -/
def RequestParser.PopU8 (rp : RequestParser) : Except Fault (Nat × RequestParser) :=
  (rp.advanceNormal 1).map (fun rp1 => (u8 (rp.cmd_buf.rd rp.index), rp1))

/-- The call `rp.Pop<u64>()`: two consecutive words, low word first. -/
def RequestParser.PopU64 (rp : RequestParser) : Except Fault (Nat × RequestParser) :=
  (rp.advanceNormal 2).map
    (fun rp1 => (rp.cmd_buf.rd rp.index + rp.cmd_buf.rd (rp.index + 1) * 2 ^ 32, rp1))

/-- The call `rp.PopStaticBuffer(&size)`: a descriptor word and an address word; returns
the address and the decoded size. -/
def RequestParser.PopStaticBuffer (rp : RequestParser) :
    Except Fault ((Nat × Nat) × RequestParser) :=
  (rp.advanceTranslate 2).map
    (fun rp1 => ((rp.cmd_buf.rd (rp.index + 1), DescriptorSize (rp.cmd_buf.rd rp.index)), rp1))

/-- The call `rp.PopMappedBuffer()`: a descriptor word and an address word. -/
def RequestParser.PopMappedBuffer (rp : RequestParser) :
    Except Fault (MappedBuffer × RequestParser) :=
  (rp.advanceTranslate 2).map
    (fun rp1 => ({ address := rp.cmd_buf.rd (rp.index + 1),
                   size := DescriptorSize (rp.cmd_buf.rd rp.index),
                   perms := DescriptorTag (rp.cmd_buf.rd rp.index) }, rp1))

/-- The call `rp.PeekStaticBuffer(buffer_index, &size)`: the output static buffer
descriptor already present in the buffer, read without moving the cursor.  Output
descriptor `buffer_index` is the word pair `64 + 2 * buffer_index`, as in the raw
handlers of `frd.cpp`, which read `cmd_buff[64]` and `cmd_buff[65]`.  Returns the address
and the decoded size. -/
def RequestParser.PeekStaticBuffer (rp : RequestParser) (buffer_index : Nat) : Nat × Nat :=
  (rp.cmd_buf.rd (65 + 2 * buffer_index), DescriptorSize (rp.cmd_buf.rd (64 + 2 * buffer_index)))

/-- The kinds of `Push` call on a request builder. -/
inductive PushKind where
  /-- The call `rb.Push(ResultCode)`. -/
  | ResultCode
  /-- The call `rb.Push<T>(value)` for a scalar of at most 32 bits. -/
  | Scalar
  /-- The call `rb.PushStaticBuffer`. -/
  | StaticBuffer
  /-- The call `rb.PushMappedBuffer`. -/
  | MappedBuffer
  deriving DecidableEq, Repr

/-- Modelled from the spec: the request builder of section 4.3, a write cursor over the
command buffer together with the word counts declared to `MakeBuilder`, the words pushed
so far and the sequence of `Push` calls. -/
structure RequestBuilder where
  cmd_buf : CmdBuf
  /-- Declared number of normal words. -/
  normal_params : Nat
  /-- Declared number of translate words. -/
  translate_params : Nat
  /-- The cursor: index of the next word to write. -/
  index : Nat
  /-- Normal words pushed so far. -/
  normal_pushed : Nat
  /-- Translate words pushed so far. -/
  translate_pushed : Nat
  /-- The `Push` calls made so far, first call first. -/
  pushes : List PushKind

/-- The call `rp.MakeBuilder(normal, translate)`: writes the response header into word 0
and places the cursor on word 1. -/
def RequestParser.MakeBuilder (rp : RequestParser) (normal translate : Nat) : RequestBuilder :=
  { cmd_buf := rp.cmd_buf.wr 0 (MakeHeader rp.command_id normal translate),
    normal_params := normal, translate_params := translate, index := 1,
    normal_pushed := 0, translate_pushed := 0, pushes := [] }

/-- Write one normal word at the cursor. -/
def RequestBuilder.pushWord (rb : RequestBuilder) (k : PushKind) (v : Nat) : RequestBuilder :=
  { rb with cmd_buf := rb.cmd_buf.wr rb.index v, index := rb.index + 1,
            normal_pushed := rb.normal_pushed + 1, pushes := rb.pushes ++ [k] }

/-- The call `rb.Push(result)` for a `ResultCode` with raw value `raw`. -/
def RequestBuilder.PushResult (rb : RequestBuilder) (raw : Nat) : RequestBuilder :=
  rb.pushWord PushKind.ResultCode raw

/-- The call `rb.Push<u32>(v)`. -/
def RequestBuilder.PushU32 (rb : RequestBuilder) (v : Nat) : RequestBuilder :=
  rb.pushWord PushKind.Scalar (u32 v)

/-- The call `rb.Push<u16>(v)`. -/
def RequestBuilder.PushU16 (rb : RequestBuilder) (v : Nat) : RequestBuilder :=
  rb.pushWord PushKind.Scalar (u16 v)

/-- The call `rb.Push<u8>(v)`. -/
def RequestBuilder.PushU8 (rb : RequestBuilder) (v : Nat) : RequestBuilder :=
  rb.pushWord PushKind.Scalar (u8 v)

/-- The call `rb.Push(b)` for a `bool`. -/
def RequestBuilder.PushBool (rb : RequestBuilder) (b : Bool) : RequestBuilder :=
  rb.pushWord PushKind.Scalar (boolToNat b)

/-- Write a descriptor word and an address word at the cursor. -/
def RequestBuilder.pushPair (rb : RequestBuilder) (k : PushKind) (desc addr : Nat) :
    RequestBuilder :=
  { rb with cmd_buf := (rb.cmd_buf.wr rb.index desc).wr (rb.index + 1) addr,
            index := rb.index + 2, translate_pushed := rb.translate_pushed + 2,
            pushes := rb.pushes ++ [k] }

/-- The call `rb.PushStaticBuffer(address, size, buffer_id)`: the descriptor word
`(size << 14) | 2` of section 6, then the address.  The only call in `frd.cpp` passes
`buffer_id = 0`. -/
def RequestBuilder.PushStaticBuffer (rb : RequestBuilder) (address size _buffer_id : Nat) :
    RequestBuilder :=
  rb.pushPair PushKind.StaticBuffer (EncodeDescriptor size 2) address

/-- The call `rb.PushMappedBuffer(buffer)`: the descriptor word `(size << 14) | permission`,
then the address. -/
def RequestBuilder.PushMappedBuffer (rb : RequestBuilder) (b : MappedBuffer) : RequestBuilder :=
  rb.pushPair PushKind.MappedBuffer (EncodeDescriptor b.size b.perms) b.address

end IPC

/-! ## Handler outcomes -/

/-- What a handler invocation leaves behind. -/
structure Outcome where
  /-- Whether the handler returned or where it stopped. -/
  status : Status
  /-- The command buffer and module state at that point. -/
  world : World
  /-- The guest-memory writes issued, in order. -/
  writes : List MemWrite
  /-- The request parser at that point, for a handler that uses one. -/
  rp : Option IPC.RequestParser
  /-- The request builder at that point, for a handler that made one. -/
  rb : Option IPC.RequestBuilder

/-- A raw-buffer handler returns. -/
def Outcome.raw (w : World) (writes : List MemWrite) : Outcome :=
  { status := Status.returned, world := w, writes := writes, rp := none, rb := none }

/-- Modelled from the spec: the `ASSERT` and `ASSERT_MSG` macros of `common/assert.h`
(not among the files embedded here).  The spec speaks of assertions as what aborts on a
defect (sections 4.3 and 7): a failed assertion stops the handler at that statement, and
nothing after it runs.  Every assertion of `frd.cpp` and `ptm.cpp` precedes the handler's
first write, so the outcome carries the entry state and no guest-memory write. -/
def Outcome.assertFailed (msg : String) (w : World) (rp : Option IPC.RequestParser) : Outcome :=
  { status := Status.failed (Fault.AssertFailed msg), world := w, writes := [], rp := rp,
    rb := none }

/-- A handler stops at a parser fault of section 4.2, before having written anything.
(No handler of the two files reaches this outcome.) -/
def Outcome.parseFailed (f : Fault) (w : World) : Outcome :=
  { status := Status.failed f, world := w, writes := [], rp := none, rb := none }

/-- A builder-based handler returns: the response is the builder's buffer. -/
def Outcome.built (w : World) (writes : List MemWrite) (rp : IPC.RequestParser)
    (rb : IPC.RequestBuilder) : Outcome :=
  { status := Status.returned, world := { w with cmd_buff := rb.cmd_buf }, writes := writes,
    rp := some rp, rb := some rb }

/-! ## `frd.cpp` -/

namespace FRD

open IPC

/-- `GetMyPresence` (frd.cpp:31). -/
def GetMyPresence (sz : TypeSizes) (w : World) : Outcome :=
  let cmd_buff := w.cmd_buff
  let shifted_out_size := cmd_buff.rd 64
  let my_presence_addr := cmd_buff.rd 65
  if shifted_out_size = size_t (size_t (sz.MyPresence <<< 14) ||| 2) then
    let writes : List MemWrite :=
      [{ addr := my_presence_addr, len := sz.MyPresence, src := WriteSource.my_presence }]
    Outcome.raw { w with cmd_buff := cmd_buff.wr 1 RESULT_SUCCESS } writes
  else
    Outcome.assertFailed "shifted_out_size == ((sizeof(MyPresence) << 14) | 2)" w none

/-- `GetMyPreference` (frd.cpp:46). -/
def GetMyPreference (w : World) : Outcome :=
  let rp := RequestParser.new w.cmd_buff 0x6 0 0
  let rb := rp.MakeBuilder 4 0
  let rb := rb.PushResult RESULT_SUCCESS
  let rb := rb.PushU8 1
  let rb := rb.PushU8 1
  let rb := rb.PushU8 1
  Outcome.built w [] rp rb

/-- Body of the loop of `GetFriendKeyList` (frd.cpp:68-73): `break` once `i` reaches
`friends.size()`, else `Memory::WriteBlock(frd_key_addr + i * sizeof(FriendKey),
&friends[i], sizeof(FriendKey))`. -/
def GetFriendKeyList.body (sz : TypeSizes) (friends_size frd_key_addr : Nat) (i : Nat)
    (writes : List MemWrite) : Option (List MemWrite) :=
  if i ≥ friends_size then none
  else some (writes ++
    [{ addr := u32 (size_t (frd_key_addr + size_t (i * sz.FriendKey))), len := sz.FriendKey,
       src := WriteSource.friend i }])

/-- `GetFriendKeyList` (frd.cpp:57). -/
def GetFriendKeyList (sz : TypeSizes) (w : World) : Outcome :=
  let cmd_buff := w.cmd_buff
  let offset := cmd_buff.rd 1
  let frd_count := cmd_buff.rd 2
  let frd_keys_size := cmd_buff.rd 64 >>> 14
  if frd_keys_size = size_t (sz.FriendKey * frd_count) then
    let frd_key_addr := cmd_buff.rd 65
    let writes : List MemWrite :=
      if offset < w.friends_size then
        forLoop (GetFriendKeyList.body sz w.friends_size frd_key_addr) (frd_count - offset)
          offset []
      else []
    let cmd_buff := cmd_buff.wr 1 RESULT_SUCCESS
    let cmd_buff := cmd_buff.wr 2 w.friends_size
    Outcome.raw { w with cmd_buff := cmd_buff } writes
  else
    Outcome.assertFailed "Output buffer size not match" w none

/-- Body of the loop of `GetFriendProfile` (frd.cpp:91-93). -/
def GetFriendProfile.body (sz : TypeSizes) (profiles_addr : Nat) (i : Nat)
    (writes : List MemWrite) : Option (List MemWrite) :=
  some (writes ++
    [{ addr := u32 (size_t (profiles_addr + size_t (i * sz.Profile))), len := sz.Profile,
       src := WriteSource.zero }])

/-- `GetFriendProfile` (frd.cpp:82). -/
def GetFriendProfile (sz : TypeSizes) (w : World) : Outcome :=
  let cmd_buff := w.cmd_buff
  let count := cmd_buff.rd 1
  let profiles_addr := cmd_buff.rd 65
  let profiles_size := cmd_buff.rd 64 >>> 14
  if profiles_size = size_t (sz.Profile * count) then
    let writes := forLoop (GetFriendProfile.body sz profiles_addr) (count - 0) 0 []
    Outcome.raw { w with cmd_buff := cmd_buff.wr 1 RESULT_SUCCESS } writes
  else
    Outcome.assertFailed "Output buffer size not match" w none

/-- Body of the loop of `GetFriendAttributeFlags` (frd.cpp:108-111):
`Memory::Write8(attr_flags_addr + i, 0)`. -/
def GetFriendAttributeFlags.body (attr_flags_addr : Nat) (i : Nat) (writes : List MemWrite) :
    Option (List MemWrite) :=
  some (writes ++ [{ addr := u32 (attr_flags_addr + i), len := 1, src := WriteSource.zero }])

/-- `GetFriendAttributeFlags` (frd.cpp:101). -/
def GetFriendAttributeFlags (w : World) : Outcome :=
  let cmd_buff := w.cmd_buff
  let count := cmd_buff.rd 1
  let attr_flags_addr := cmd_buff.rd 65
  let writes := forLoop (GetFriendAttributeFlags.body attr_flags_addr) (count - 0) 0 []
  Outcome.raw { w with cmd_buff := cmd_buff.wr 1 RESULT_SUCCESS } writes

/-- `HasLoggedIn` (frd.cpp:119). -/
def HasLoggedIn (w : World) : Outcome :=
  let rp := RequestParser.new w.cmd_buff 0x1 0 0
  let rb := rp.MakeBuilder 2 0
  let rb := rb.PushResult RESULT_SUCCESS
  let rb := rb.PushU8 w.logged_in
  Outcome.built w [] rp rb

/-- `IsOnline` (frd.cpp:126). -/
def IsOnline (w : World) : Outcome :=
  let rp := RequestParser.new w.cmd_buff 0x2 0 0
  let rb := rp.MakeBuilder 2 0
  let rb := rb.PushResult RESULT_SUCCESS
  let rb := rb.PushU8 w.logged_in
  Outcome.built w [] rp rb

/-- `Login` (frd.cpp:133). -/
def Login (w : World) : Outcome :=
  let rp := RequestParser.new w.cmd_buff 0x3 0 2
  let w := { w with logged_in := 1 }
  let rb := rp.MakeBuilder 1 0
  let rb := rb.PushResult RESULT_SUCCESS
  Outcome.built w [] rp rb

/-- `Logout` (frd.cpp:142). -/
def Logout (w : World) : Outcome :=
  let rp := RequestParser.new w.cmd_buff 0x4 0 0
  let w := { w with logged_in := 0 }
  let rb := rp.MakeBuilder 1 0
  let rb := rb.PushResult RESULT_SUCCESS
  Outcome.built w [] rp rb

/-- `GetMyFriendKey` (frd.cpp:151). -/
def GetMyFriendKey (sz : TypeSizes) (w : World) : Outcome :=
  let cmd_buff := w.cmd_buff
  let cmd_buff := cmd_buff.wr 1 RESULT_SUCCESS
  let cmd_buff := cmd_buff.memcpy 2 w.my_friend_key sz.FriendKey
  Outcome.raw { w with cmd_buff := cmd_buff } []

/-- `GetMyScreenName` (frd.cpp:158). -/
def GetMyScreenName (w : World) : Outcome :=
  let cmd_buff := w.cmd_buff
  let cmd_buff := cmd_buff.wr 1 RESULT_SUCCESS
  let cmd_buff := cmd_buff.copy16 2 w.username 11
  Outcome.raw { w with cmd_buff := cmd_buff } []

/-- `GetMyProfile` (frd.cpp:165). -/
def GetMyProfile (sz : TypeSizes) (w : World) : Outcome :=
  let cmd_buff := w.cmd_buff
  let cmd_buff := cmd_buff.wr 1 RESULT_SUCCESS
  let cmd_buff := cmd_buff.memcpy 2 w.my_profile sz.Profile
  Outcome.raw { w with cmd_buff := cmd_buff } []

/-- `GetMyMii` (frd.cpp:172). -/
def GetMyMii (w : World) : Outcome :=
  let cmd_buff := w.cmd_buff
  let cmd_buff := cmd_buff.wr 1 RESULT_SUCCESS
  let cmd_buff := cmd_buff.memcpy 2 w.my_mii 0x60
  Outcome.raw { w with cmd_buff := cmd_buff } []

/-- `GetMyPlayingGame` (frd.cpp:179). -/
def GetMyPlayingGame (w : World) : Outcome :=
  let rp := RequestParser.new w.cmd_buff 0xC 0 0
  let rb := rp.MakeBuilder 5 0
  let rb := rb.PushResult RESULT_SUCCESS
  let rb := rb.PushU32 0
  let rb := rb.PushU32 0
  let rb := rb.PushU16 0
  let rb := rb.PushU32 0
  Outcome.built w [] rp rb

/-- `GetMyFavoriteGame` (frd.cpp:191). -/
def GetMyFavoriteGame (w : World) : Outcome :=
  let rp := RequestParser.new w.cmd_buff 0xD 0 0
  let rb := rp.MakeBuilder 3 0
  let rb := rb.PushResult RESULT_SUCCESS
  let rb := rb.PushU32 0
  let rb := rb.PushU32 0
  Outcome.built w [] rp rb

/-- The UTF-16 code units of `Common::UTF8ToUTF16("Citra is awesome!")`. -/
def comment16 : List Nat := "Citra is awesome!".toList.map Char.toNat

/-- `GetMyComment` (frd.cpp:201). -/
def GetMyComment (w : World) : Outcome :=
  let cmd_buff := w.cmd_buff
  let cmd_buff := cmd_buff.wr 1 RESULT_SUCCESS
  let cmd_buff := cmd_buff.copy16 2 comment16 33
  Outcome.raw { w with cmd_buff := cmd_buff } []

/-- `IsValidFriendCode` (frd.cpp:209). -/
def IsValidFriendCode (w : World) : Outcome :=
  let rp := RequestParser.new w.cmd_buff 0x26 2 0
  match rp.PopU64 with
  | .error f => Outcome.parseFailed f w
  | .ok (_friend_code, rp) =>
    let rb := rp.MakeBuilder 2 0
    let rb := rb.PushResult RESULT_SUCCESS
    let rb := rb.PushU8 1
    Outcome.built w [] rp rb

/-- Body of the loop of `UnscrambleLocalFriendCode` (frd.cpp:235-253): a zero `u64` is
written at `unscrambled_friend_codes + current * sizeof(result)`. -/
def UnscrambleLocalFriendCode.body (unscrambled_friend_codes : Nat) (current : Nat)
    (writes : List MemWrite) : Option (List MemWrite) :=
  some (writes ++
    [{ addr := u32 (size_t (unscrambled_friend_codes + size_t (current * 8))), len := 8,
       src := WriteSource.zero }])

/-- `UnscrambleLocalFriendCode` (frd.cpp:219). -/
def UnscrambleLocalFriendCode (w : World) : Outcome :=
  let scrambled_friend_code_size := 12
  let friend_code_size := 8
  let rp := RequestParser.new w.cmd_buff 0x1C 1 2
  match rp.PopU32 with
  | .error f => Outcome.parseFailed f w
  | .ok (friend_code_count, rp) =>
    match rp.PopStaticBuffer with
    | .error f => Outcome.parseFailed f w
    | .ok ((_scrambled_friend_codes, in_buffer_size), rp) =>
      if in_buffer_size = size_t (friend_code_count * scrambled_friend_code_size) then
        let (unscrambled_friend_codes, out_buffer_size) := rp.PeekStaticBuffer 0
        if out_buffer_size = size_t (friend_code_count * friend_code_size) then
          let writes := forLoop (UnscrambleLocalFriendCode.body unscrambled_friend_codes)
            (friend_code_count - 0) 0 []
          let rb := rp.MakeBuilder 1 2
          let rb := rb.PushResult RESULT_SUCCESS
          let rb := rb.PushStaticBuffer unscrambled_friend_codes out_buffer_size 0
          Outcome.built w writes rp rb
        else Outcome.assertFailed "Wrong output buffer size" w (some rp)
      else Outcome.assertFailed "Wrong input buffer size" w (some rp)

/-- `SetClientSdkVersion` (frd.cpp:261). -/
def SetClientSdkVersion (w : World) : Outcome :=
  let rp := RequestParser.new w.cmd_buff 0x32 1 2
  match rp.PopU32 with
  | .error f => Outcome.parseFailed f w
  | .ok (version, rp) =>
    let w := { w with version := version }
    let rb := rp.MakeBuilder 1 0
    let rb := rb.PushResult RESULT_SUCCESS
    Outcome.built w [] rp rb

end FRD

/-! ## `ptm.cpp` -/

namespace PTM

open IPC

/-- `Module::Interface::GetAdapterState` (ptm.cpp:29). -/
def GetAdapterState (w : World) : Outcome :=
  let rp := RequestParser.new w.cmd_buff 0x5 0 0
  let rb := rp.MakeBuilder 2 0
  let rb := rb.PushResult RESULT_SUCCESS
  let rb := rb.PushBool w.settings.p_adapter_connected
  Outcome.built w [] rp rb

/-- `Module::Interface::GetShellState` (ptm.cpp:37). -/
def GetShellState (w : World) : Outcome :=
  let rp := RequestParser.new w.cmd_buff 0x6 0 0
  let rb := rp.MakeBuilder 2 0
  let rb := rb.PushResult RESULT_SUCCESS
  let rb := rb.PushBool w.shell_open
  Outcome.built w [] rp rb

/-- `Module::Interface::GetBatteryLevel` (ptm.cpp:45). -/
def GetBatteryLevel (w : World) : Outcome :=
  let rp := RequestParser.new w.cmd_buff 0x7 0 0
  let rb := rp.MakeBuilder 2 0
  let rb := rb.PushResult RESULT_SUCCESS
  let rb := rb.PushU32 w.settings.p_battery_level
  Outcome.built w [] rp rb

/-- `Module::Interface::GetBatteryChargeState` (ptm.cpp:53). -/
def GetBatteryChargeState (w : World) : Outcome :=
  let rp := RequestParser.new w.cmd_buff 0x8 0 0
  let rb := rp.MakeBuilder 2 0
  let rb := rb.PushResult RESULT_SUCCESS
  let rb := rb.PushBool w.settings.p_battery_charging
  Outcome.built w [] rp rb

/-- `Module::Interface::GetPedometerState` (ptm.cpp:61). -/
def GetPedometerState (w : World) : Outcome :=
  let rp := RequestParser.new w.cmd_buff 0x9 0 0
  let rb := rp.MakeBuilder 2 0
  let rb := rb.PushResult RESULT_SUCCESS
  let rb := rb.PushBool w.pedometer_is_counting
  Outcome.built w [] rp rb

/-- Body of the loop of `GetStepHistory` (ptm.cpp:82-85):
`buffer.Write(&steps_per_hour, i * sizeof(u16), sizeof(u16))`. -/
def GetStepHistory.body (buffer : MappedBuffer) (i : Nat) (writes : List MemWrite) :
    Option (List MemWrite) :=
  some (writes ++ [buffer.Write WriteSource.zero (size_t (i * 2)) 2])

/-- `Module::Interface::GetStepHistory` (ptm.cpp:71). -/
def GetStepHistory (w : World) : Outcome :=
  let rp := RequestParser.new w.cmd_buff 0xB 3 2
  match rp.PopU32 with
  | .error f => Outcome.parseFailed f w
  | .ok (hours, rp) =>
    match rp.PopU64 with
    | .error f => Outcome.parseFailed f w
    | .ok (_start_time, rp) =>
      match rp.PopMappedBuffer with
      | .error f => Outcome.parseFailed f w
      | .ok (buffer, rp) =>
        if size_t (2 * hours) = buffer.GetSize then
          let writes := forLoop (GetStepHistory.body buffer) (hours - 0) 0 []
          let rb := rp.MakeBuilder 1 2
          let rb := rb.PushResult RESULT_SUCCESS
          let rb := rb.PushMappedBuffer buffer
          Outcome.built w writes rp rb
        else Outcome.assertFailed "Buffer for steps count has incorrect size" w (some rp)

/-- `Module::Interface::GetTotalStepCount` (ptm.cpp:95). -/
def GetTotalStepCount (w : World) : Outcome :=
  let rp := RequestParser.new w.cmd_buff 0xC 0 0
  let rb := rp.MakeBuilder 2 0
  let rb := rb.PushResult RESULT_SUCCESS
  let rb := rb.PushU32 0
  Outcome.built w [] rp rb

/-- `Module::Interface::GetSoftwareClosedFlag` (ptm.cpp:105). -/
def GetSoftwareClosedFlag (w : World) : Outcome :=
  let rp := RequestParser.new w.cmd_buff 0x80F 0 0
  let rb := rp.MakeBuilder 2 0
  let rb := rb.PushResult RESULT_SUCCESS
  let rb := rb.PushBool false
  Outcome.built w [] rp rb

/-- The helper `CheckNew3DS(IPC::RequestBuilder& rb)` (ptm.cpp:115). -/
def CheckNew3DS.helper (w : World) (rb : RequestBuilder) : RequestBuilder :=
  let is_new_3ds : Bool :=
    if w.system_model_id = 2 ∨ w.system_model_id = 4 ∨ w.system_model_id = 5 then true
    else false
  let rb := rb.PushResult RESULT_SUCCESS
  let rb := rb.PushBool is_new_3ds
  rb

/-- `Module::Interface::ConfigureNew3DSCPU` (ptm.cpp:135). -/
def ConfigureNew3DSCPU (w : World) : Outcome :=
  let rp := RequestParser.new w.cmd_buff 0x818 1 0
  match rp.PopU8 with
  | .error f => Outcome.parseFailed f w
  | .ok (v, rp) =>
    let value := v &&& 0xF
    let rb := rp.MakeBuilder 2 0
    let rb := rb.PushResult (w.kernel_set_state value)
    Outcome.built w [] rp rb

/-- `Module::Interface::CheckNew3DS` (ptm.cpp:144). -/
def CheckNew3DS (w : World) : Outcome :=
  let rp := RequestParser.new w.cmd_buff 0x40A 0 0
  let rb := rp.MakeBuilder 2 0
  let rb := CheckNew3DS.helper w rb
  Outcome.built w [] rp rb

end PTM

/-! ## The handler tables of the two files -/

/-- The handlers of `frd.cpp` and `ptm.cpp`. -/
inductive Handler where
  | FRD_GetMyPresence
  | FRD_GetMyPreference
  | FRD_GetFriendKeyList
  | FRD_GetFriendProfile
  | FRD_GetFriendAttributeFlags
  | FRD_HasLoggedIn
  | FRD_IsOnline
  | FRD_Login
  | FRD_Logout
  | FRD_GetMyFriendKey
  | FRD_GetMyScreenName
  | FRD_GetMyProfile
  | FRD_GetMyMii
  | FRD_GetMyPlayingGame
  | FRD_GetMyFavoriteGame
  | FRD_GetMyComment
  | FRD_IsValidFriendCode
  | FRD_UnscrambleLocalFriendCode
  | FRD_SetClientSdkVersion
  | PTM_GetAdapterState
  | PTM_GetShellState
  | PTM_GetBatteryLevel
  | PTM_GetBatteryChargeState
  | PTM_GetPedometerState
  | PTM_GetStepHistory
  | PTM_GetTotalStepCount
  | PTM_GetSoftwareClosedFlag
  | PTM_ConfigureNew3DSCPU
  | PTM_CheckNew3DS
  deriving DecidableEq, Repr

/-- Invoke a handler. -/
def Handler.run (sz : TypeSizes) : Handler → World → Outcome
  | .FRD_GetMyPresence => FRD.GetMyPresence sz
  | .FRD_GetMyPreference => FRD.GetMyPreference
  | .FRD_GetFriendKeyList => FRD.GetFriendKeyList sz
  | .FRD_GetFriendProfile => FRD.GetFriendProfile sz
  | .FRD_GetFriendAttributeFlags => FRD.GetFriendAttributeFlags
  | .FRD_HasLoggedIn => FRD.HasLoggedIn
  | .FRD_IsOnline => FRD.IsOnline
  | .FRD_Login => FRD.Login
  | .FRD_Logout => FRD.Logout
  | .FRD_GetMyFriendKey => FRD.GetMyFriendKey sz
  | .FRD_GetMyScreenName => FRD.GetMyScreenName
  | .FRD_GetMyProfile => FRD.GetMyProfile sz
  | .FRD_GetMyMii => FRD.GetMyMii
  | .FRD_GetMyPlayingGame => FRD.GetMyPlayingGame
  | .FRD_GetMyFavoriteGame => FRD.GetMyFavoriteGame
  | .FRD_GetMyComment => FRD.GetMyComment
  | .FRD_IsValidFriendCode => FRD.IsValidFriendCode
  | .FRD_UnscrambleLocalFriendCode => FRD.UnscrambleLocalFriendCode
  | .FRD_SetClientSdkVersion => FRD.SetClientSdkVersion
  | .PTM_GetAdapterState => PTM.GetAdapterState
  | .PTM_GetShellState => PTM.GetShellState
  | .PTM_GetBatteryLevel => PTM.GetBatteryLevel
  | .PTM_GetBatteryChargeState => PTM.GetBatteryChargeState
  | .PTM_GetPedometerState => PTM.GetPedometerState
  | .PTM_GetStepHistory => PTM.GetStepHistory
  | .PTM_GetTotalStepCount => PTM.GetTotalStepCount
  | .PTM_GetSoftwareClosedFlag => PTM.GetSoftwareClosedFlag
  | .PTM_ConfigureNew3DSCPU => PTM.ConfigureNew3DSCPU
  | .PTM_CheckNew3DS => PTM.CheckNew3DS

/-! ## The shared page -/

namespace SharedPage

/-- Modelled from the spec: `BitField<position, bits, u8>::GetMask()` of
`common/bit_field.h` (not among the files embedded here), the mask of a `bits`-wide field at bit
`position` of a byte. -/
def GetMask (position bits : Nat) : Nat := u8 ((2 ^ bits - 1) <<< position)

/-- Modelled from the spec: `BitField::Value()`, the field read out of its storage byte. -/
def Value (position bits storage : Nat) : Nat :=
  (storage &&& GetMask position bits) >>> position

/-- Modelled from the spec: `BitField::Assign(value)`, which replaces the bits of the
field and keeps the other bits of the storage byte. -/
def Assign (position bits storage value : Nat) : Nat :=
  u8 ((storage &&& (0xFF ^^^ GetMask position bits)) |||
      ((value <<< position) &&& GetMask position bits))

/-- Modelled from the spec: the part of `SharedPage::shared_page` (declared in
`core/hle/shared_page.h`, not among the files embedded here) that the control panel writes.
`battery_state` is one byte packing, in the order of the spec's layout (section 6), the
adapter-connected flag (bit 0), the charging flag (bit 1) and the 3-bit charge level
(bits 2 to 4). -/
structure SharedPageDef where
  /-- The byte `battery_state.raw`. -/
  battery_state : Nat
  /-- The `u8` network state. -/
  network_state : Nat
  /-- The `u8` wifi link level. -/
  wifi_link_level : Nat
  deriving DecidableEq, Repr

/-- Read `battery_state.is_adapter_connected`. -/
def is_adapter_connected (p : SharedPageDef) : Nat := Value 0 1 p.battery_state

/-- Read `battery_state.is_charging`. -/
def is_charging (p : SharedPageDef) : Nat := Value 1 1 p.battery_state

/-- Read `battery_state.charge_level`. -/
def charge_level (p : SharedPageDef) : Nat := Value 2 3 p.battery_state

end SharedPage

/-! ## `control_panel.cpp` -/

namespace ControlPanel

open SharedPage

/-- The widgets of the panel the slots read. -/
structure Ui where
  /-- Value of `power_adapter_connected->isChecked()`. -/
  power_adapter_connected : Bool
  /-- Value of `power_battery_charging->isChecked()`. -/
  power_battery_charging : Bool
  /-- Value of `power_battery_level->currentIndex()`. -/
  power_battery_level : Int
  /-- Value of `network_wifi_status->currentIndex()`. -/
  network_wifi_status : Int
  /-- Value of `network_link_level->value()`. -/
  network_link_level : Int
  /-- Value of `network_state->currentIndex()`. -/
  network_state : Int

/-- The two stores the slots write. -/
structure PanelState where
  settings : Settings
  shared_page : SharedPageDef

/-- `ControlPanel::nsti` (control_panel.cpp:46). -/
def nsti (state : Nat) : Int :=
  match state with
  | 2 => 3
  | 3 => 2
  | 4 => 2
  | 6 => 2
  | 7 => 1
  | _ => 0

/-- `ControlPanel::itns` (control_panel.cpp:61); control falls off the end of the
function, without a value, for an index the `switch` does not list. -/
def itns (index : Int) : Option Nat :=
  match index with
  | 0 => some 0
  | 1 => some 7
  | 2 => some 3
  | 3 => some 2
  | _ => none

/-- `ControlPanel::OnAdapterConnectedChanged` (control_panel.cpp:74). -/
def OnAdapterConnectedChanged (ui : Ui) (st : PanelState) : PanelState :=
  let settings := { st.settings with p_adapter_connected := ui.power_adapter_connected }
  { settings := settings,
    shared_page := { st.shared_page with
      battery_state :=
        Assign 0 1 st.shared_page.battery_state (u8 (boolToNat settings.p_adapter_connected)) } }

/-- `ControlPanel::OnBatteryChargingChanged` (control_panel.cpp:80). -/
def OnBatteryChargingChanged (ui : Ui) (st : PanelState) : PanelState :=
  let settings := { st.settings with p_battery_charging := ui.power_battery_charging }
  { settings := settings,
    shared_page := { st.shared_page with
      battery_state :=
        Assign 1 1 st.shared_page.battery_state (u8 (boolToNat settings.p_battery_charging)) } }

/-- `ControlPanel::OnBatteryLevelChanged` (control_panel.cpp:86). -/
def OnBatteryLevelChanged (ui : Ui) (st : PanelState) : PanelState :=
  let settings := { st.settings with p_battery_level := u32OfInt (ui.power_battery_level + 1) }
  { settings := settings,
    shared_page := { st.shared_page with
      battery_state :=
        Assign 2 3 st.shared_page.battery_state (u8 settings.p_battery_level) } }

/-- `ControlPanel::OnWifiStatusChanged` (control_panel.cpp:93). -/
def OnWifiStatusChanged (ui : Ui) (st : PanelState) : PanelState :=
  { st with settings := { st.settings with n_wifi_status := ui.network_wifi_status } }

/-- `ControlPanel::OnWifiLinkLevelChanged` (control_panel.cpp:97). -/
def OnWifiLinkLevelChanged (ui : Ui) (st : PanelState) : PanelState :=
  { settings := { st.settings with n_wifi_link_level := u8OfInt ui.network_link_level },
    shared_page := { st.shared_page with wifi_link_level := u8OfInt ui.network_link_level } }

/-- `ControlPanel::OnNetworkStateChanged` (control_panel.cpp:102); there is a result
only when both calls of `itns` return a value. -/
def OnNetworkStateChanged (ui : Ui) (st : PanelState) : Option PanelState :=
  match itns ui.network_state, itns ui.network_state with
  | some s1, some s2 =>
    some { settings := { st.settings with n_state := s1 },
           shared_page := { st.shared_page with network_state := s2 } }
  | _, _ => none

end ControlPanel

/-! ## Concrete requests -/

/-- Sizes for the concrete requests below: a 16-byte `FriendKey` (two `u32` and one `u64`,
the shape of the initialiser `{1, 2, 3ull}` of `my_friend_key`), an 8-byte `Profile` and a
300-byte `MyPresence`. -/
def sampleSizes : TypeSizes := { FriendKey := 16, Profile := 8, MyPresence := 300 }

/-- A command buffer asking `GetFriendKeyList` for 3 keys from offset 1 into a 48-byte
output buffer at `0x1000`. -/
def sampleCmd : CmdBuf := fun i =>
  match i with
  | 1 => 1
  | 2 => 3
  | 64 => 0xC0002
  | 65 => 0x1000
  | _ => 0

/-- A command buffer asking `GetFriendKeyList` for 3 keys while declaring a 4-byte
output buffer, and asking `GetFriendAttributeFlags` for 5 flags with the same buffer. -/
def shortCmd : CmdBuf := fun i =>
  match i with
  | 1 => 5
  | 2 => 3
  | 64 => 0x10002
  | 65 => 0x1000
  | _ => 0

/-- A module state with two friends, around the given command buffer. -/
def worldOf (cmd : CmdBuf) : World where
  cmd_buff := cmd
  logged_in := 0
  friends_size := 2
  my_friend_key := fun _ => 0
  my_profile := fun _ => 0
  my_mii := fun _ => 0
  username := []
  version := 0
  settings := { p_adapter_connected := false, p_battery_charging := false, p_battery_level := 0,
                n_wifi_status := 0, n_wifi_link_level := 0, n_state := 0 }
  shell_open := true
  pedometer_is_counting := false
  system_model_id := 0
  kernel_set_state := fun _ => 0

/-- The panel of the shared-page scenario: adapter box checked, charging box unchecked,
battery level combo on index 2 (level 3). -/
def ControlPanel.scenarioUi : ControlPanel.Ui where
  power_adapter_connected := true
  power_battery_charging := false
  power_battery_level := 2
  network_wifi_status := 0
  network_link_level := 0
  network_state := 0

/-- A state of the two stores the panel writes. -/
def ControlPanel.samplePanel : ControlPanel.PanelState where
  settings := { p_adapter_connected := false, p_battery_charging := true, p_battery_level := 5,
                n_wifi_status := 0, n_wifi_link_level := 0, n_state := 0 }
  shared_page := { battery_state := 0x16, network_state := 0, wifi_link_level := 0 }

end Citra

/-! # Theorems -/

namespace Citra

open IPC

theorem u32_lt (n : Nat) : u32 n < 2 ^ 32 := Nat.mod_lt _ (by norm_num)

theorem rd_lt (cmd : CmdBuf) (i : Nat) : cmd.rd i < 2 ^ 32 := u32_lt _

theorem u32_rd (cmd : CmdBuf) (i : Nat) : u32 (cmd.rd i) = cmd.rd i := by
  unfold CmdBuf.rd u32; exact Nat.mod_mod _ _

theorem size_t_mul_of_lt {a b : Nat} (ha : a < 2 ^ 32) (hb : b < 2 ^ 32) :
    size_t (a * b) = a * b := by
  unfold size_t
  apply Nat.mod_eq_of_lt
  calc a * b < 2 ^ 32 * 2 ^ 32 := Nat.mul_lt_mul'' ha hb
    _ = 2 ^ 64 := by norm_num

theorem DescriptorSize_rd (cmd : CmdBuf) (i : Nat) :
    DescriptorSize (cmd.rd i) = cmd.rd i >>> 14 := by
  unfold DescriptorSize; rw [u32_rd]

theorem GetFriendKeyList_status (sz : TypeSizes) (w : World) (h : sz.FriendKey < 2 ^ 32) :
    (FRD.GetFriendKeyList sz w).status =
      if DescriptorSize (w.cmd_buff.rd 64) = sz.FriendKey * w.cmd_buff.rd 2 then Status.returned
      else Status.failed (Fault.AssertFailed "Output buffer size not match") := by
  unfold FRD.GetFriendKeyList
  simp only [DescriptorSize_rd, size_t_mul_of_lt h (rd_lt _ _)]
  split <;> rfl


theorem GetFriendProfile_status (sz : TypeSizes) (w : World) (h : sz.Profile < 2 ^ 32) :
    (FRD.GetFriendProfile sz w).status =
      if DescriptorSize (w.cmd_buff.rd 64) = sz.Profile * w.cmd_buff.rd 1 then Status.returned
      else Status.failed (Fault.AssertFailed "Output buffer size not match") := by
  unfold FRD.GetFriendProfile
  simp only [DescriptorSize_rd, size_t_mul_of_lt h (rd_lt _ _)]
  split <;> rfl

theorem size_t_small {a : Nat} (c : Nat) (hc : c < 2 ^ 32) (ha : a < 2 ^ 32) :
    size_t (a * c) = a * c := size_t_mul_of_lt ha hc

theorem UnscrambleLocalFriendCode_status (w : World) :
    (FRD.UnscrambleLocalFriendCode w).status =
      if DescriptorSize (w.cmd_buff.rd 2) = w.cmd_buff.rd 1 * 12 then
        if DescriptorSize (w.cmd_buff.rd 64) = w.cmd_buff.rd 1 * 8 then Status.returned
        else Status.failed (Fault.AssertFailed "Wrong output buffer size")
      else Status.failed (Fault.AssertFailed "Wrong input buffer size") := by
  have h12 := size_t_small 12 (by norm_num) (rd_lt w.cmd_buff 1)
  have h8 := size_t_small 8 (by norm_num) (rd_lt w.cmd_buff 1)
  simp only [FRD.UnscrambleLocalFriendCode, RequestParser.new, RequestParser.PopU32,
    RequestParser.PopStaticBuffer, RequestParser.advanceNormal, RequestParser.advanceTranslate,
    RequestParser.PeekStaticBuffer, Except.map]
  simp only [Nat.zero_add, Nat.le_refl, if_true, Nat.reduceAdd, Nat.reduceMul]
  rw [h12, h8]
  split
  · split <;> rfl
  · rfl

theorem GetStepHistory_status (w : World) :
    (PTM.GetStepHistory w).status =
      if DescriptorSize (w.cmd_buff.rd 4) = 2 * w.cmd_buff.rd 1 then Status.returned
      else Status.failed (Fault.AssertFailed "Buffer for steps count has incorrect size") := by
  have h2 := size_t_mul_of_lt (show 2 < 2 ^ 32 by norm_num) (rd_lt w.cmd_buff 1)
  simp only [PTM.GetStepHistory, RequestParser.new, RequestParser.PopU32, RequestParser.PopU64,
    RequestParser.PopMappedBuffer, RequestParser.advanceNormal, RequestParser.advanceTranslate,
    MappedBuffer.GetSize, Except.map]
  simp only [Nat.zero_add, Nat.reduceAdd, Nat.reduceLeDiff, Nat.le_refl, if_true]
  rw [h2]
  by_cases h : DescriptorSize (w.cmd_buff.rd 4) = 2 * w.cmd_buff.rd 1
  · rw [if_pos h.symm, if_pos h]; rfl
  · rw [if_neg (fun h1 => h h1.symm), if_neg h]; rfl


/-- C1: with `sizeof(FriendKey)` and `sizeof(Profile)` below `2 ^ 32`, each size-checking
handler (FRD `GetFriendKeyList`, `GetFriendProfile`, `UnscrambleLocalFriendCode`, PTM
`GetStepHistory`) returns if and only if the size decoded from the buffer descriptor equals
the element size times the count taken from the request (for `UnscrambleLocalFriendCode`
both the input size `12 * count` and the output size `8 * count`), and for any other
declared size it stops at its size assertion. -/
theorem size_check_passes_iff_size_is_product (sz : TypeSizes) (w : World)
    (hFK : sz.FriendKey < 2 ^ 32) (hP : sz.Profile < 2 ^ 32) :
    (((FRD.GetFriendKeyList sz w).status = Status.returned ↔
        DescriptorSize (w.cmd_buff.rd 64) = sz.FriendKey * w.cmd_buff.rd 2) ∧
      (DescriptorSize (w.cmd_buff.rd 64) ≠ sz.FriendKey * w.cmd_buff.rd 2 →
        (FRD.GetFriendKeyList sz w).status =
          Status.failed (Fault.AssertFailed "Output buffer size not match"))) ∧
    (((FRD.GetFriendProfile sz w).status = Status.returned ↔
        DescriptorSize (w.cmd_buff.rd 64) = sz.Profile * w.cmd_buff.rd 1) ∧
      (DescriptorSize (w.cmd_buff.rd 64) ≠ sz.Profile * w.cmd_buff.rd 1 →
        (FRD.GetFriendProfile sz w).status =
          Status.failed (Fault.AssertFailed "Output buffer size not match"))) ∧
    (((FRD.UnscrambleLocalFriendCode w).status = Status.returned ↔
        (DescriptorSize (w.cmd_buff.rd 2) = w.cmd_buff.rd 1 * 12 ∧
          DescriptorSize (w.cmd_buff.rd 64) = w.cmd_buff.rd 1 * 8)) ∧
      (DescriptorSize (w.cmd_buff.rd 2) ≠ w.cmd_buff.rd 1 * 12 →
        (FRD.UnscrambleLocalFriendCode w).status =
          Status.failed (Fault.AssertFailed "Wrong input buffer size")) ∧
      (DescriptorSize (w.cmd_buff.rd 2) = w.cmd_buff.rd 1 * 12 →
        DescriptorSize (w.cmd_buff.rd 64) ≠ w.cmd_buff.rd 1 * 8 →
        (FRD.UnscrambleLocalFriendCode w).status =
          Status.failed (Fault.AssertFailed "Wrong output buffer size"))) ∧
    (((PTM.GetStepHistory w).status = Status.returned ↔
        DescriptorSize (w.cmd_buff.rd 4) = 2 * w.cmd_buff.rd 1) ∧
      (DescriptorSize (w.cmd_buff.rd 4) ≠ 2 * w.cmd_buff.rd 1 →
        (PTM.GetStepHistory w).status =
          Status.failed (Fault.AssertFailed "Buffer for steps count has incorrect size"))) := by
  rw [GetFriendKeyList_status sz w hFK, GetFriendProfile_status sz w hP,
    UnscrambleLocalFriendCode_status, GetStepHistory_status]
  refine ⟨⟨?_, ?_⟩, ⟨?_, ?_⟩, ⟨?_, ?_, ?_⟩, ⟨?_, ?_⟩⟩
  · by_cases h : DescriptorSize (w.cmd_buff.rd 64) = sz.FriendKey * w.cmd_buff.rd 2 <;> simp [h]
  · intro h; simp [h]
  · by_cases h : DescriptorSize (w.cmd_buff.rd 64) = sz.Profile * w.cmd_buff.rd 1 <;> simp [h]
  · intro h; simp [h]
  · by_cases h : DescriptorSize (w.cmd_buff.rd 2) = w.cmd_buff.rd 1 * 12 <;>
      by_cases h1 : DescriptorSize (w.cmd_buff.rd 64) = w.cmd_buff.rd 1 * 8 <;> simp [h, h1]
  · intro h; simp [h]
  · intro h h1; simp [h, h1]
  · by_cases h : DescriptorSize (w.cmd_buff.rd 4) = 2 * w.cmd_buff.rd 1 <;> simp [h]
  · intro h; simp [h]

/-- C1 at a concrete request: 3 keys of 16 bytes into a 48-byte buffer. -/
theorem size_check_passes_iff_size_is_product_witness :
    sampleSizes.FriendKey < 2 ^ 32 ∧ sampleSizes.Profile < 2 ^ 32 ∧
    DescriptorSize ((worldOf sampleCmd).cmd_buff.rd 64) = 48 ∧
    (FRD.GetFriendKeyList sampleSizes (worldOf sampleCmd)).status = Status.returned :=
  ⟨by decide, by decide, by decide,
    (size_check_passes_iff_size_is_product sampleSizes (worldOf sampleCmd)
      (by decide) (by decide)).1.1.2 (by decide)⟩

theorem shiftLeft_or_eq_add (p t : Nat) (ht : t < 2 ^ 14) :
    (p <<< 14) ||| t = 2 ^ 14 * p + t := by
  rw [Nat.shiftLeft_eq, Nat.mul_comm, ← Nat.mul_add_lt_is_or ht]

theorem shiftLeft_or_shiftRight (p t : Nat) (ht : t < 2 ^ 14) :
    ((p <<< 14) ||| t) >>> 14 = p := by
  rw [shiftLeft_or_eq_add p t ht, Nat.shiftRight_eq_div_pow]
  omega

theorem shiftLeft_or_two_shiftRight (p : Nat) : ((p <<< 14) ||| 2) >>> 14 = p :=
  shiftLeft_or_shiftRight p 2 (by norm_num)

theorem expected_presence_word (p : Nat) (hp : p < 2 ^ 32) :
    size_t (size_t (p <<< 14) ||| 2) = (p <<< 14) ||| 2 := by
  have h1 : p <<< 14 < 2 ^ 46 := by
    rw [Nat.shiftLeft_eq]
    calc p * 2 ^ 14 < 2 ^ 32 * 2 ^ 14 := Nat.mul_lt_mul_of_pos_right hp (by norm_num)
      _ = 2 ^ 46 := by norm_num
  have h2 : size_t (p <<< 14) = p <<< 14 := by
    unfold size_t
    exact Nat.mod_eq_of_lt (lt_trans h1 (by norm_num))
  rw [h2]
  unfold size_t
  apply Nat.mod_eq_of_lt
  have h3 : (p <<< 14) ||| 2 < 2 ^ 46 := Nat.or_lt_two_pow h1 (by norm_num)
  exact lt_trans h3 (by norm_num)

theorem GetMyPresence_mismatch (sz : TypeSizes) (w : World) (hMP : sz.MyPresence < 2 ^ 32)
    (h : DescriptorSize (w.cmd_buff.rd 64) ≠ sz.MyPresence) :
    FRD.GetMyPresence sz w =
      Outcome.assertFailed "shifted_out_size == ((sizeof(MyPresence) << 14) | 2)" w none := by
  unfold FRD.GetMyPresence
  simp only [expected_presence_word _ hMP]
  rw [if_neg]
  intro h1
  apply h
  rw [DescriptorSize_rd, h1, shiftLeft_or_two_shiftRight]

theorem GetFriendKeyList_mismatch (sz : TypeSizes) (w : World) (hFK : sz.FriendKey < 2 ^ 32)
    (h : DescriptorSize (w.cmd_buff.rd 64) ≠ sz.FriendKey * w.cmd_buff.rd 2) :
    FRD.GetFriendKeyList sz w = Outcome.assertFailed "Output buffer size not match" w none := by
  unfold FRD.GetFriendKeyList
  simp only [size_t_mul_of_lt hFK (rd_lt _ _)]
  rw [if_neg]
  rwa [DescriptorSize_rd] at h

theorem GetFriendProfile_mismatch (sz : TypeSizes) (w : World) (hP : sz.Profile < 2 ^ 32)
    (h : DescriptorSize (w.cmd_buff.rd 64) ≠ sz.Profile * w.cmd_buff.rd 1) :
    FRD.GetFriendProfile sz w = Outcome.assertFailed "Output buffer size not match" w none := by
  unfold FRD.GetFriendProfile
  simp only [size_t_mul_of_lt hP (rd_lt _ _)]
  rw [if_neg]
  rwa [DescriptorSize_rd] at h

theorem UnscrambleLocalFriendCode_mismatch (w : World)
    (h : ¬ (DescriptorSize (w.cmd_buff.rd 2) = w.cmd_buff.rd 1 * 12 ∧
            DescriptorSize (w.cmd_buff.rd 64) = w.cmd_buff.rd 1 * 8)) :
    ∃ msg rp, FRD.UnscrambleLocalFriendCode w = Outcome.assertFailed msg w (some rp) := by
  have h12 := size_t_small 12 (by norm_num) (rd_lt w.cmd_buff 1)
  have h8 := size_t_small 8 (by norm_num) (rd_lt w.cmd_buff 1)
  simp only [FRD.UnscrambleLocalFriendCode, RequestParser.new, RequestParser.PopU32,
    RequestParser.PopStaticBuffer, RequestParser.advanceNormal, RequestParser.advanceTranslate,
    RequestParser.PeekStaticBuffer, Except.map]
  simp only [Nat.zero_add, Nat.le_refl, if_true, Nat.reduceAdd, Nat.reduceMul]
  rw [h12, h8]
  by_cases ha : DescriptorSize (w.cmd_buff.rd 2) = w.cmd_buff.rd 1 * 12
  · have hb : ¬ DescriptorSize (w.cmd_buff.rd 64) = w.cmd_buff.rd 1 * 8 :=
      fun hb => h ⟨ha, hb⟩
    rw [if_pos ha, if_neg hb]
    exact ⟨_, _, rfl⟩
  · rw [if_neg ha]
    exact ⟨_, _, rfl⟩

theorem GetStepHistory_mismatch (w : World)
    (h : DescriptorSize (w.cmd_buff.rd 4) ≠ 2 * w.cmd_buff.rd 1) :
    ∃ rp, PTM.GetStepHistory w =
      Outcome.assertFailed "Buffer for steps count has incorrect size" w (some rp) := by
  have h2 := size_t_mul_of_lt (show 2 < 2 ^ 32 by norm_num) (rd_lt w.cmd_buff 1)
  simp only [PTM.GetStepHistory, RequestParser.new, RequestParser.PopU32, RequestParser.PopU64,
    RequestParser.PopMappedBuffer, RequestParser.advanceNormal, RequestParser.advanceTranslate,
    MappedBuffer.GetSize, Except.map]
  simp only [Nat.zero_add, Nat.reduceAdd, Nat.reduceLeDiff, Nat.le_refl, if_true]
  rw [h2, if_neg (fun h1 => h h1.symm)]
  exact ⟨_, rfl⟩

/-- C2, as stated, fails: on a request to `GetFriendKeyList` for 3 keys that declares a
4-byte output buffer, the handler does not return with a failure code in word 1; it stops
at its assertion. -/
theorem size_mismatch_returns_failure_code_counterexample :
    DescriptorSize ((worldOf shortCmd).cmd_buff.rd 64) ≠
        sampleSizes.FriendKey * (worldOf shortCmd).cmd_buff.rd 2 ∧
    ¬ ((FRD.GetFriendKeyList sampleSizes (worldOf shortCmd)).status = Status.returned ∧
        (FRD.GetFriendKeyList sampleSizes (worldOf shortCmd)).world.cmd_buff.rd 1
          ≠ RESULT_SUCCESS ∧
        (FRD.GetFriendKeyList sampleSizes (worldOf shortCmd)).writes = []) ∧
    (FRD.GetFriendKeyList sampleSizes (worldOf shortCmd)).status =
      Status.failed (Fault.AssertFailed "Output buffer size not match") := by
  decide

/-- C2, amended: with the three `sizeof` values below `2 ^ 32`, on a request whose declared
descriptor size disagrees with the size the handler expects, each of FRD `GetMyPresence`,
`GetFriendKeyList`, `GetFriendProfile`, `UnscrambleLocalFriendCode` and PTM `GetStepHistory`
stops at its size assertion: it does not return, the command buffer and module state are
exactly as they were on entry (no `ResultCode` has been written), and no guest memory has
been written. -/
theorem size_mismatch_stops_at_assertion (sz : TypeSizes) (w : World)
    (hMP : sz.MyPresence < 2 ^ 32) (hFK : sz.FriendKey < 2 ^ 32) (hP : sz.Profile < 2 ^ 32) :
    (DescriptorSize (w.cmd_buff.rd 64) ≠ sz.MyPresence →
      (FRD.GetMyPresence sz w).status = Status.failed
          (Fault.AssertFailed "shifted_out_size == ((sizeof(MyPresence) << 14) | 2)") ∧
        (FRD.GetMyPresence sz w).world = w ∧ (FRD.GetMyPresence sz w).writes = []) ∧
    (DescriptorSize (w.cmd_buff.rd 64) ≠ sz.FriendKey * w.cmd_buff.rd 2 →
      (FRD.GetFriendKeyList sz w).status =
          Status.failed (Fault.AssertFailed "Output buffer size not match") ∧
        (FRD.GetFriendKeyList sz w).world = w ∧ (FRD.GetFriendKeyList sz w).writes = []) ∧
    (DescriptorSize (w.cmd_buff.rd 64) ≠ sz.Profile * w.cmd_buff.rd 1 →
      (FRD.GetFriendProfile sz w).status =
          Status.failed (Fault.AssertFailed "Output buffer size not match") ∧
        (FRD.GetFriendProfile sz w).world = w ∧ (FRD.GetFriendProfile sz w).writes = []) ∧
    (¬ (DescriptorSize (w.cmd_buff.rd 2) = w.cmd_buff.rd 1 * 12 ∧
          DescriptorSize (w.cmd_buff.rd 64) = w.cmd_buff.rd 1 * 8) →
      (∃ msg, (FRD.UnscrambleLocalFriendCode w).status
          = Status.failed (Fault.AssertFailed msg)) ∧
        (FRD.UnscrambleLocalFriendCode w).world = w ∧
        (FRD.UnscrambleLocalFriendCode w).writes = []) ∧
    (DescriptorSize (w.cmd_buff.rd 4) ≠ 2 * w.cmd_buff.rd 1 →
      (PTM.GetStepHistory w).status =
          Status.failed (Fault.AssertFailed "Buffer for steps count has incorrect size") ∧
        (PTM.GetStepHistory w).world = w ∧ (PTM.GetStepHistory w).writes = []) := by
  refine ⟨?_, ?_, ?_, ?_, ?_⟩
  · intro h
    rw [GetMyPresence_mismatch sz w hMP h]
    exact ⟨rfl, rfl, rfl⟩
  · intro h
    rw [GetFriendKeyList_mismatch sz w hFK h]
    exact ⟨rfl, rfl, rfl⟩
  · intro h
    rw [GetFriendProfile_mismatch sz w hP h]
    exact ⟨rfl, rfl, rfl⟩
  · intro h
    obtain ⟨msg, rp, hu⟩ := UnscrambleLocalFriendCode_mismatch w h
    rw [hu]
    exact ⟨⟨msg, rfl⟩, rfl, rfl⟩
  · intro h
    obtain ⟨rp, hu⟩ := GetStepHistory_mismatch w h
    rw [hu]
    exact ⟨rfl, rfl, rfl⟩

/-- C2 amended, at a concrete request: 3 keys asked for, 4 bytes declared. -/
theorem size_mismatch_stops_at_assertion_witness :
    (sampleSizes.MyPresence < 2 ^ 32 ∧ sampleSizes.FriendKey < 2 ^ 32 ∧
      sampleSizes.Profile < 2 ^ 32) ∧
    DescriptorSize ((worldOf shortCmd).cmd_buff.rd 64) ≠
      sampleSizes.FriendKey * (worldOf shortCmd).cmd_buff.rd 2 ∧
    ((FRD.GetFriendKeyList sampleSizes (worldOf shortCmd)).status =
        Status.failed (Fault.AssertFailed "Output buffer size not match") ∧
      (FRD.GetFriendKeyList sampleSizes (worldOf shortCmd)).world = worldOf shortCmd ∧
      (FRD.GetFriendKeyList sampleSizes (worldOf shortCmd)).writes = []) :=
  ⟨⟨by decide, by decide, by decide⟩, by decide,
    (size_mismatch_stops_at_assertion sampleSizes (worldOf shortCmd)
      (by decide) (by decide) (by decide)).2.1 (by decide)⟩

theorem forLoop_some (f : Nat → MemWrite) :
    ∀ (n lo : Nat) (acc : List MemWrite),
      forLoop (fun i a => some (a ++ [f i])) n lo acc = acc ++ (List.range' lo n).map f := by
  intro n
  induction n with
  | zero => intro lo acc; simp [forLoop]
  | succ k ih =>
    intro lo acc
    simp only [forLoop]
    rw [ih, List.range'_succ]
    simp

theorem forLoop_break (f : Nat → MemWrite) (m : Nat) :
    ∀ (n lo : Nat) (acc : List MemWrite),
      forLoop (fun i a => if i ≥ m then none else some (a ++ [f i])) n lo acc =
        acc ++ (List.range' lo (min n (m - lo))).map f := by
  intro n
  induction n with
  | zero => intro lo acc; simp [forLoop]
  | succ k ih =>
    intro lo acc
    by_cases h : lo ≥ m
    · have h0 : m - lo = 0 := by omega
      simp [forLoop, h, h0]
    · have h1 : min (k + 1) (m - lo) = min k (m - (lo + 1)) + 1 := by omega
      simp only [forLoop, h, if_false]
      rw [ih, h1, List.range'_succ]
      simp

theorem u32_size_t (n : Nat) : u32 (size_t n) = u32 n := by
  unfold u32 size_t
  exact Nat.mod_mod_of_dvd n (by norm_num)

theorem GetFriendKeyList_body_eq (sz : TypeSizes) (friends_size addr : Nat) :
    FRD.GetFriendKeyList.body sz friends_size addr =
      fun i a => if i ≥ friends_size then none else some (a ++
        [{ addr := u32 (size_t (addr + size_t (i * sz.FriendKey))), len := sz.FriendKey,
           src := WriteSource.friend i }]) := by
  funext i a
  rfl

theorem GetFriendKeyList_writes (sz : TypeSizes) (w : World)
    (h : (FRD.GetFriendKeyList sz w).status = Status.returned) :
    (FRD.GetFriendKeyList sz w).writes =
      (List.range' (w.cmd_buff.rd 1)
          (min (w.cmd_buff.rd 2 - w.cmd_buff.rd 1) (w.friends_size - w.cmd_buff.rd 1))).map
        (fun i => { addr := u32 (size_t (w.cmd_buff.rd 65 + size_t (i * sz.FriendKey))),
                    len := sz.FriendKey, src := WriteSource.friend i }) := by
  simp only [FRD.GetFriendKeyList] at h ⊢
  by_cases hsz : w.cmd_buff.rd 64 >>> 14 = size_t (sz.FriendKey * w.cmd_buff.rd 2)
  · simp only [hsz, if_true, Outcome.raw]
    by_cases ho : w.cmd_buff.rd 1 < w.friends_size
    · rw [if_pos ho, GetFriendKeyList_body_eq, forLoop_break]
      simp
    · have h0 : w.friends_size - w.cmd_buff.rd 1 = 0 := by omega
      rw [if_neg ho, h0]
      simp
  · simp [hsz, Outcome.assertFailed] at h

theorem GetFriendProfile_writes (sz : TypeSizes) (w : World)
    (h : (FRD.GetFriendProfile sz w).status = Status.returned) :
    (FRD.GetFriendProfile sz w).writes =
      (List.range' 0 (w.cmd_buff.rd 1)).map
        (fun i => { addr := u32 (size_t (w.cmd_buff.rd 65 + size_t (i * sz.Profile))),
                    len := sz.Profile }) := by
  simp only [FRD.GetFriendProfile] at h ⊢
  by_cases hsz : w.cmd_buff.rd 64 >>> 14 = size_t (sz.Profile * w.cmd_buff.rd 1)
  · simp only [hsz, if_true, Outcome.raw]
    have hb : FRD.GetFriendProfile.body sz (w.cmd_buff.rd 65) =
        fun i a => some (a ++
          [{ addr := u32 (size_t (w.cmd_buff.rd 65 + size_t (i * sz.Profile))),
             len := sz.Profile }]) := by
      funext i a; rfl
    rw [hb, forLoop_some]
    simp
  · simp [hsz, Outcome.assertFailed] at h

theorem GetFriendAttributeFlags_writes (w : World) :
    (FRD.GetFriendAttributeFlags w).writes =
      (List.range' 0 (w.cmd_buff.rd 1)).map
        (fun i => { addr := u32 (w.cmd_buff.rd 65 + i), len := 1 }) := by
  simp only [FRD.GetFriendAttributeFlags, Outcome.raw]
  have hb : FRD.GetFriendAttributeFlags.body (w.cmd_buff.rd 65) =
      fun i a => some (a ++ [{ addr := u32 (w.cmd_buff.rd 65 + i), len := 1 }]) := by
    funext i a; rfl
  rw [hb, forLoop_some]
  simp

theorem UnscrambleLocalFriendCode_writes (w : World)
    (h : (FRD.UnscrambleLocalFriendCode w).status = Status.returned) :
    (FRD.UnscrambleLocalFriendCode w).writes =
      (List.range' 0 (w.cmd_buff.rd 1)).map
        (fun i => { addr := u32 (size_t (w.cmd_buff.rd 65 + size_t (i * 8))), len := 8 }) := by
  have hb : FRD.UnscrambleLocalFriendCode.body (w.cmd_buff.rd 65) =
      fun i a => some (a ++
        [{ addr := u32 (size_t (w.cmd_buff.rd 65 + size_t (i * 8))), len := 8 }]) := by
    funext i a; rfl
  simp only [FRD.UnscrambleLocalFriendCode, RequestParser.new, RequestParser.PopU32,
    RequestParser.PopStaticBuffer, RequestParser.advanceNormal, RequestParser.advanceTranslate,
    RequestParser.PeekStaticBuffer, Except.map] at h ⊢
  simp only [Nat.zero_add, Nat.le_refl, if_true, Nat.reduceAdd, Nat.reduceMul] at h ⊢
  by_cases h1 : DescriptorSize (w.cmd_buff.rd 2) = size_t (w.cmd_buff.rd 1 * 12)
  · by_cases h2 : DescriptorSize (w.cmd_buff.rd 64) = size_t (w.cmd_buff.rd 1 * 8)
    · simp only [h1, h2, if_true, Outcome.built]
      rw [hb, forLoop_some]
      simp
    · simp [h1, h2, Outcome.assertFailed] at h
  · simp [h1, Outcome.assertFailed] at h

theorem GetStepHistory_writes (w : World)
    (h : (PTM.GetStepHistory w).status = Status.returned) :
    (PTM.GetStepHistory w).writes =
      (List.range' 0 (w.cmd_buff.rd 1)).map
        (fun i => { addr := u32 (w.cmd_buff.rd 5 + size_t (i * 2)), len := 2 }) := by
  have hb : ∀ b : MappedBuffer, PTM.GetStepHistory.body b =
      fun i a => some (a ++ [{ addr := u32 (b.address + size_t (i * 2)), len := 2 }]) := by
    intro b; funext i a; rfl
  simp only [PTM.GetStepHistory, RequestParser.new, RequestParser.PopU32, RequestParser.PopU64,
    RequestParser.PopMappedBuffer, RequestParser.advanceNormal, RequestParser.advanceTranslate,
    MappedBuffer.GetSize, Except.map] at h ⊢
  simp only [Nat.zero_add, Nat.reduceAdd, Nat.reduceLeDiff, Nat.le_refl, if_true] at h ⊢
  by_cases h1 : size_t (2 * w.cmd_buff.rd 1) = DescriptorSize (w.cmd_buff.rd 4)
  · simp only [h1, if_true, Outcome.built]
    rw [hb, forLoop_some]
    simp
  · simp [h1, Outcome.assertFailed] at h

/-- C3: `GetFriendAttributeFlags` does not keep its writes inside the range the descriptor
declares.  For every request it writes one byte at each of `address + i`, `i < count`,
whatever word 64 says; on the request with `count = 5` and a descriptor declaring 4 bytes
at `0x1000` it writes the byte at `0x1004`, outside `[0x1000, 0x1004)`. -/
theorem GetFriendAttributeFlags_writes_outside_declared_range :
    (∀ w : World, (FRD.GetFriendAttributeFlags w).status = Status.returned ∧
      (FRD.GetFriendAttributeFlags w).writes =
        (List.range' 0 (w.cmd_buff.rd 1)).map
          (fun i => { addr := u32 (w.cmd_buff.rd 65 + i), len := 1 })) ∧
    (worldOf shortCmd).cmd_buff.rd 1 = 5 ∧
    DescriptorSize ((worldOf shortCmd).cmd_buff.rd 64) = 4 ∧
    (worldOf shortCmd).cmd_buff.rd 65 = 0x1000 ∧
    (FRD.GetFriendAttributeFlags (worldOf shortCmd)).writes =
      [{ addr := 0x1000, len := 1 }, { addr := 0x1001, len := 1 }, { addr := 0x1002, len := 1 },
       { addr := 0x1003, len := 1 }, { addr := 0x1004, len := 1 }] ∧
    ¬ (∀ wr ∈ (FRD.GetFriendAttributeFlags (worldOf shortCmd)).writes,
        (worldOf shortCmd).cmd_buff.rd 65 ≤ wr.addr ∧
        wr.addr + wr.len ≤ (worldOf shortCmd).cmd_buff.rd 65 +
          DescriptorSize ((worldOf shortCmd).cmd_buff.rd 64)) := by
  refine ⟨fun w => ⟨rfl, GetFriendAttributeFlags_writes w⟩, by decide, by decide, by decide,
    by decide, by decide⟩

theorem elem_bound {i n e : Nat} (h : i < n) : i * e + e ≤ e * n := by
  calc i * e + e = (i + 1) * e := by ring
    _ ≤ n * e := Nat.mul_le_mul_right e h
    _ = e * n := Nat.mul_comm n e

theorem elem_addr (a i e : Nat) (hi : i < 2 ^ 32) (he : e < 2 ^ 32) :
    u32 (size_t (a + size_t (i * e))) = u32 (a + i * e) := by
  rw [u32_size_t, size_t_mul_of_lt hi he]

theorem GetFriendKeyList_returned (sz : TypeSizes) (w : World) (hFK : sz.FriendKey < 2 ^ 32)
    (h : (FRD.GetFriendKeyList sz w).status = Status.returned) :
    DescriptorSize (w.cmd_buff.rd 64) = sz.FriendKey * w.cmd_buff.rd 2 := by
  rw [GetFriendKeyList_status sz w hFK] at h
  by_contra hne
  simp [hne] at h

theorem GetFriendProfile_returned (sz : TypeSizes) (w : World) (hP : sz.Profile < 2 ^ 32)
    (h : (FRD.GetFriendProfile sz w).status = Status.returned) :
    DescriptorSize (w.cmd_buff.rd 64) = sz.Profile * w.cmd_buff.rd 1 := by
  rw [GetFriendProfile_status sz w hP] at h
  by_contra hne
  simp [hne] at h

theorem UnscrambleLocalFriendCode_returned (w : World)
    (h : (FRD.UnscrambleLocalFriendCode w).status = Status.returned) :
    DescriptorSize (w.cmd_buff.rd 64) = w.cmd_buff.rd 1 * 8 := by
  rw [UnscrambleLocalFriendCode_status] at h
  by_contra hne
  by_cases h1 : DescriptorSize (w.cmd_buff.rd 2) = w.cmd_buff.rd 1 * 12 <;> simp [hne, h1] at h

theorem GetStepHistory_returned (w : World)
    (h : (PTM.GetStepHistory w).status = Status.returned) :
    DescriptorSize (w.cmd_buff.rd 4) = 2 * w.cmd_buff.rd 1 := by
  rw [GetStepHistory_status] at h
  by_contra hne
  simp [hne] at h

/-- C4: with `sizeof(FriendKey)` and `sizeof(Profile)` below `2 ^ 32`, whenever FRD
`GetFriendKeyList`, `GetFriendProfile`, `UnscrambleLocalFriendCode` or PTM `GetStepHistory`
returns (its size check passed), each guest-memory write it issued is the write of one
element `i`, with `i` below the count the size was checked against: it starts `i *
element_size` bytes into the output buffer, has length `element_size`, and ends at or before
the declared size of the output descriptor. -/
theorem writes_within_declared_size (sz : TypeSizes) (w : World)
    (hFK : sz.FriendKey < 2 ^ 32) (hP : sz.Profile < 2 ^ 32) :
    ((FRD.GetFriendKeyList sz w).status = Status.returned →
      ∀ wr ∈ (FRD.GetFriendKeyList sz w).writes, ∃ i, i < w.cmd_buff.rd 2 ∧
        wr.addr = u32 (w.cmd_buff.rd 65 + i * sz.FriendKey) ∧ wr.len = sz.FriendKey ∧
        i * sz.FriendKey + wr.len ≤ DescriptorSize (w.cmd_buff.rd 64)) ∧
    ((FRD.GetFriendProfile sz w).status = Status.returned →
      ∀ wr ∈ (FRD.GetFriendProfile sz w).writes, ∃ i, i < w.cmd_buff.rd 1 ∧
        wr.addr = u32 (w.cmd_buff.rd 65 + i * sz.Profile) ∧ wr.len = sz.Profile ∧
        i * sz.Profile + wr.len ≤ DescriptorSize (w.cmd_buff.rd 64)) ∧
    ((FRD.UnscrambleLocalFriendCode w).status = Status.returned →
      ∀ wr ∈ (FRD.UnscrambleLocalFriendCode w).writes, ∃ i, i < w.cmd_buff.rd 1 ∧
        wr.addr = u32 (w.cmd_buff.rd 65 + i * 8) ∧ wr.len = 8 ∧
        i * 8 + wr.len ≤ DescriptorSize (w.cmd_buff.rd 64)) ∧
    ((PTM.GetStepHistory w).status = Status.returned →
      ∀ wr ∈ (PTM.GetStepHistory w).writes, ∃ i, i < w.cmd_buff.rd 1 ∧
        wr.addr = u32 (w.cmd_buff.rd 5 + i * 2) ∧ wr.len = 2 ∧
        i * 2 + wr.len ≤ DescriptorSize (w.cmd_buff.rd 4)) := by
  refine ⟨?_, ?_, ?_, ?_⟩
  · intro h wr hwr
    have hs := GetFriendKeyList_returned sz w hFK h
    rw [GetFriendKeyList_writes sz w h, List.mem_map] at hwr
    obtain ⟨i, hi, rfl⟩ := hwr
    rw [List.mem_range'_1] at hi
    have hlt : i < w.cmd_buff.rd 2 := by omega
    refine ⟨i, hlt, ?_, rfl, ?_⟩
    · exact elem_addr _ _ _ (lt_trans hlt (rd_lt _ _)) hFK
    · rw [hs]; exact elem_bound hlt
  · intro h wr hwr
    have hs := GetFriendProfile_returned sz w hP h
    rw [GetFriendProfile_writes sz w h, List.mem_map] at hwr
    obtain ⟨i, hi, rfl⟩ := hwr
    rw [List.mem_range'_1] at hi
    have hlt : i < w.cmd_buff.rd 1 := by omega
    refine ⟨i, hlt, ?_, rfl, ?_⟩
    · exact elem_addr _ _ _ (lt_trans hlt (rd_lt _ _)) hP
    · rw [hs]; exact elem_bound hlt
  · intro h wr hwr
    have hs := UnscrambleLocalFriendCode_returned w h
    rw [UnscrambleLocalFriendCode_writes w h, List.mem_map] at hwr
    obtain ⟨i, hi, rfl⟩ := hwr
    rw [List.mem_range'_1] at hi
    have hlt : i < w.cmd_buff.rd 1 := by omega
    refine ⟨i, hlt, ?_, rfl, ?_⟩
    · exact elem_addr _ _ _ (lt_trans hlt (rd_lt _ _)) (by norm_num)
    · rw [hs]; show i * 8 + 8 ≤ _; omega
  · intro h wr hwr
    have hs := GetStepHistory_returned w h
    rw [GetStepHistory_writes w h, List.mem_map] at hwr
    obtain ⟨i, hi, rfl⟩ := hwr
    rw [List.mem_range'_1] at hi
    have hlt : i < w.cmd_buff.rd 1 := by omega
    refine ⟨i, hlt, ?_, rfl, ?_⟩
    · show u32 (_ + size_t (i * 2)) = _
      rw [size_t_mul_of_lt (lt_trans hlt (rd_lt _ _)) (by norm_num)]
    · rw [hs]; show i * 2 + 2 ≤ _; omega

/-- C4 at a concrete request: 3 keys asked from offset 1 with two friends, so key 1 is
written 16 bytes into the 48-byte buffer. -/
theorem writes_within_declared_size_witness :
    (sampleSizes.FriendKey < 2 ^ 32 ∧ sampleSizes.Profile < 2 ^ 32) ∧
    (FRD.GetFriendKeyList sampleSizes (worldOf sampleCmd)).writes
      = [{ addr := 0x1010, len := 16, src := WriteSource.friend 1 }] ∧
    ∀ wr ∈ (FRD.GetFriendKeyList sampleSizes (worldOf sampleCmd)).writes,
      ∃ i, i < (worldOf sampleCmd).cmd_buff.rd 2 ∧
        wr.addr = u32 ((worldOf sampleCmd).cmd_buff.rd 65 + i * sampleSizes.FriendKey) ∧
        wr.len = sampleSizes.FriendKey ∧
        i * sampleSizes.FriendKey + wr.len ≤
          DescriptorSize ((worldOf sampleCmd).cmd_buff.rd 64) :=
  ⟨⟨by decide, by decide⟩, by decide,
    (writes_within_declared_size sampleSizes (worldOf sampleCmd) (by decide) (by decide)).1
      (by decide)⟩

theorem u32_of_lt {n : Nat} (h : n < 2 ^ 32) : u32 n = n := Nat.mod_eq_of_lt h

theorem EncodeDescriptor_eq (size_bytes tag : Nat) (hs : size_bytes < 2 ^ 18)
    (ht : tag < 2 ^ 14) : EncodeDescriptor size_bytes tag = 2 ^ 14 * size_bytes + tag := by
  unfold EncodeDescriptor
  rw [shiftLeft_or_eq_add _ _ ht]
  apply u32_of_lt
  omega

theorem and_mask14 (x : Nat) : x &&& 0x3FFF = x % 2 ^ 14 :=
  Nat.and_pow_two_sub_one_eq_mod x 14

/-- C5: for every `size_bytes < 2 ^ 18` and every tag or permission in `{1, 2, 3}`, the
descriptor word `(size_bytes << 14) | tag` fits a 32-bit word, decoding it with `word >> 14`
gives back `size_bytes` and with `word & 0x3FFF` gives back the tag; and the word
`GetMyPresence` expects for a structure of `size_bytes` bytes is this encoding with tag 2. -/
theorem descriptor_round_trip (size_bytes tag : Nat) (hs : size_bytes < 2 ^ 18)
    (ht : tag = 1 ∨ tag = 2 ∨ tag = 3) :
    EncodeDescriptor size_bytes tag = (size_bytes <<< 14) ||| tag ∧
    DescriptorSize (EncodeDescriptor size_bytes tag) = size_bytes ∧
    DescriptorTag (EncodeDescriptor size_bytes tag) = tag ∧
    (∀ (sz : TypeSizes) (w : World), sz.MyPresence = size_bytes →
      ((FRD.GetMyPresence sz w).status = Status.returned ↔
        w.cmd_buff.rd 64 = EncodeDescriptor size_bytes 2)) := by
  have ht14 : tag < 2 ^ 14 := by rcases ht with h | h | h <;> rw [h] <;> norm_num
  have henc := EncodeDescriptor_eq size_bytes tag hs ht14
  have hlt : 2 ^ 14 * size_bytes + tag < 2 ^ 32 := by omega
  refine ⟨?_, ?_, ?_, ?_⟩
  · rw [henc, shiftLeft_or_eq_add _ _ ht14]
  · unfold DescriptorSize
    rw [henc, u32_of_lt hlt, Nat.shiftRight_eq_div_pow]
    omega
  · unfold DescriptorTag
    rw [henc, u32_of_lt hlt, and_mask14]
    omega
  · intro sz w hsz
    have hexp : size_t (size_t (sz.MyPresence <<< 14) ||| 2) = EncodeDescriptor size_bytes 2 := by
      rw [expected_presence_word _ (by omega), hsz, EncodeDescriptor_eq _ _ hs (by norm_num),
        shiftLeft_or_eq_add _ _ (by norm_num)]
    simp only [FRD.GetMyPresence, hexp]
    by_cases h : w.cmd_buff.rd 64 = EncodeDescriptor size_bytes 2
    · simp [h, Outcome.raw]
    · simp [h, Outcome.assertFailed]

/-- C5 at a concrete descriptor: 300 bytes, static-buffer marker 2. -/
theorem descriptor_round_trip_witness :
    (300 < 2 ^ 18 ∧ ((2 : Nat) = 1 ∨ (2 : Nat) = 2 ∨ (2 : Nat) = 3)) ∧
    EncodeDescriptor 300 2 = 0x4B0002 ∧
    DescriptorSize (EncodeDescriptor 300 2) = 300 ∧
    DescriptorTag (EncodeDescriptor 300 2) = 2 :=
  ⟨⟨by decide, by decide⟩, by decide,
    (descriptor_round_trip 300 2 (by decide) (by decide)).2.1,
    (descriptor_round_trip 300 2 (by decide) (by decide)).2.2.1⟩

section BitFields

open SharedPage

theorem and_low_byte (s m : Nat) (hm : 255 &&& m = m) : s &&& m = (s % 256) &&& m := by
  have h : s % 256 = s &&& 255 := (Nat.and_pow_two_sub_one_eq_mod s 8).symm
  rw [h, Nat.and_assoc, hm]

theorem shiftLeft_and_mask (x p b : Nat) :
    (x <<< p) &&& ((2 ^ b - 1) <<< p) = (x % 2 ^ b) <<< p := by
  apply Nat.eq_of_testBit_eq
  intro j
  simp only [Nat.testBit_and, Nat.testBit_shiftLeft, Nat.testBit_two_pow_sub_one,
    Nat.testBit_mod_two_pow]
  by_cases h1 : j ≥ p <;> by_cases h2 : j - p < b <;> simp [h1, h2]

theorem Value_low_byte (p b s : Nat) (hm : 255 &&& GetMask p b = GetMask p b) :
    Value p b s = Value p b (s % 256) := by
  unfold Value
  rw [and_low_byte s _ hm]

theorem Assign_low (p b s v : Nat) (hm : GetMask p b = (2 ^ b - 1) <<< p)
    (hc : 255 &&& (0xFF ^^^ GetMask p b) = 0xFF ^^^ GetMask p b) :
    Assign p b s v = Assign p b (s % 256) (v % 2 ^ b) := by
  unfold Assign
  rw [and_low_byte s _ hc]
  have h1 : (v <<< p) &&& GetMask p b = ((v % 2 ^ b) <<< p) &&& GetMask p b := by
    rw [hm, shiftLeft_and_mask, shiftLeft_and_mask, Nat.mod_mod]
  rw [h1]

set_option maxRecDepth 100000 in
theorem adapter_bits_fin : ∀ r : Fin 256, ∀ t : Fin 2,
    Value 0 1 (Assign 0 1 r t) = t ∧ Value 1 1 (Assign 0 1 r t) = Value 1 1 r ∧
    Value 2 3 (Assign 0 1 r t) = Value 2 3 r := by
  decide

set_option maxRecDepth 100000 in
theorem charging_bits_fin : ∀ r : Fin 256, ∀ t : Fin 2,
    Value 1 1 (Assign 1 1 r t) = t ∧ Value 0 1 (Assign 1 1 r t) = Value 0 1 r ∧
    Value 2 3 (Assign 1 1 r t) = Value 2 3 r := by
  decide

set_option maxRecDepth 100000 in
theorem level_bits_fin : ∀ r : Fin 256, ∀ t : Fin 8,
    Value 2 3 (Assign 2 3 r t) = t ∧ Value 0 1 (Assign 2 3 r t) = Value 0 1 r ∧
    Value 1 1 (Assign 2 3 r t) = Value 1 1 r := by
  decide

theorem adapter_bits (s v : Nat) :
    Value 0 1 (Assign 0 1 s v) = v % 2 ∧ Value 1 1 (Assign 0 1 s v) = Value 1 1 s ∧
    Value 2 3 (Assign 0 1 s v) = Value 2 3 s := by
  rw [Assign_low 0 1 s v (by decide) (by decide), Value_low_byte 1 1 s (by decide),
    Value_low_byte 2 3 s (by decide)]
  exact adapter_bits_fin ⟨s % 256, Nat.mod_lt _ (by norm_num)⟩
    ⟨v % 2 ^ 1, Nat.mod_lt _ (by norm_num)⟩

theorem charging_bits (s v : Nat) :
    Value 1 1 (Assign 1 1 s v) = v % 2 ∧ Value 0 1 (Assign 1 1 s v) = Value 0 1 s ∧
    Value 2 3 (Assign 1 1 s v) = Value 2 3 s := by
  rw [Assign_low 1 1 s v (by decide) (by decide), Value_low_byte 0 1 s (by decide),
    Value_low_byte 2 3 s (by decide)]
  exact charging_bits_fin ⟨s % 256, Nat.mod_lt _ (by norm_num)⟩
    ⟨v % 2 ^ 1, Nat.mod_lt _ (by norm_num)⟩

theorem level_bits (s v : Nat) :
    Value 2 3 (Assign 2 3 s v) = v % 8 ∧ Value 0 1 (Assign 2 3 s v) = Value 0 1 s ∧
    Value 1 1 (Assign 2 3 s v) = Value 1 1 s := by
  rw [Assign_low 2 3 s v (by decide) (by decide), Value_low_byte 0 1 s (by decide),
    Value_low_byte 1 1 s (by decide)]
  exact level_bits_fin ⟨s % 256, Nat.mod_lt _ (by norm_num)⟩
    ⟨v % 2 ^ 3, Nat.mod_lt _ (by norm_num)⟩

end BitFields

section Panel

open SharedPage ControlPanel

theorem boolToNat_mod_two (b : Bool) : u8 (boolToNat b) % 2 = boolToNat b := by
  cases b <;> rfl

/-- C6: each of the three battery writes of the control panel changes only its own field
of `battery_state` and leaves `network_state` and `wifi_link_level` unchanged, for every
prior state and every value; and in the scenario adapter_connected = true, then charging =
false, then charge_level = 3 (combo index 2), a read after each write gives the new value of
the field just written and the prior values of the other two. -/
theorem battery_writes_are_independent (ui : Ui) (st : PanelState) :
    (is_adapter_connected (OnAdapterConnectedChanged ui st).shared_page
        = boolToNat ui.power_adapter_connected ∧
      is_charging (OnAdapterConnectedChanged ui st).shared_page
        = is_charging st.shared_page ∧
      charge_level (OnAdapterConnectedChanged ui st).shared_page
        = charge_level st.shared_page ∧
      (OnAdapterConnectedChanged ui st).shared_page.network_state
        = st.shared_page.network_state ∧
      (OnAdapterConnectedChanged ui st).shared_page.wifi_link_level
        = st.shared_page.wifi_link_level) ∧
    (is_charging (OnBatteryChargingChanged ui st).shared_page
        = boolToNat ui.power_battery_charging ∧
      is_adapter_connected (OnBatteryChargingChanged ui st).shared_page
        = is_adapter_connected st.shared_page ∧
      charge_level (OnBatteryChargingChanged ui st).shared_page
        = charge_level st.shared_page ∧
      (OnBatteryChargingChanged ui st).shared_page.network_state
        = st.shared_page.network_state ∧
      (OnBatteryChargingChanged ui st).shared_page.wifi_link_level
        = st.shared_page.wifi_link_level) ∧
    (charge_level (OnBatteryLevelChanged ui st).shared_page
        = u8 (u32OfInt (ui.power_battery_level + 1)) % 8 ∧
      is_adapter_connected (OnBatteryLevelChanged ui st).shared_page
        = is_adapter_connected st.shared_page ∧
      is_charging (OnBatteryLevelChanged ui st).shared_page
        = is_charging st.shared_page ∧
      (OnBatteryLevelChanged ui st).shared_page.network_state
        = st.shared_page.network_state ∧
      (OnBatteryLevelChanged ui st).shared_page.wifi_link_level
        = st.shared_page.wifi_link_level) ∧
    (is_adapter_connected (OnAdapterConnectedChanged scenarioUi st).shared_page = 1 ∧
      is_charging (OnAdapterConnectedChanged scenarioUi st).shared_page
        = is_charging st.shared_page ∧
      charge_level (OnAdapterConnectedChanged scenarioUi st).shared_page
        = charge_level st.shared_page ∧
      is_adapter_connected
        (OnBatteryChargingChanged scenarioUi (OnAdapterConnectedChanged scenarioUi st)).shared_page
        = 1 ∧
      is_charging
        (OnBatteryChargingChanged scenarioUi (OnAdapterConnectedChanged scenarioUi st)).shared_page
        = 0 ∧
      charge_level
        (OnBatteryChargingChanged scenarioUi (OnAdapterConnectedChanged scenarioUi st)).shared_page
        = charge_level st.shared_page ∧
      is_adapter_connected
        (OnBatteryLevelChanged scenarioUi
          (OnBatteryChargingChanged scenarioUi
            (OnAdapterConnectedChanged scenarioUi st))).shared_page = 1 ∧
      is_charging
        (OnBatteryLevelChanged scenarioUi
          (OnBatteryChargingChanged scenarioUi
            (OnAdapterConnectedChanged scenarioUi st))).shared_page = 0 ∧
      charge_level
        (OnBatteryLevelChanged scenarioUi
          (OnBatteryChargingChanged scenarioUi
            (OnAdapterConnectedChanged scenarioUi st))).shared_page = 3) := by
  have hA : ∀ (u : Ui) (s : PanelState),
      is_adapter_connected (OnAdapterConnectedChanged u s).shared_page
          = boolToNat u.power_adapter_connected ∧
        is_charging (OnAdapterConnectedChanged u s).shared_page = is_charging s.shared_page ∧
        charge_level (OnAdapterConnectedChanged u s).shared_page
          = charge_level s.shared_page := by
    intro u s
    have h := adapter_bits s.shared_page.battery_state (u8 (boolToNat u.power_adapter_connected))
    rw [boolToNat_mod_two] at h
    exact h
  have hB : ∀ (u : Ui) (s : PanelState),
      is_charging (OnBatteryChargingChanged u s).shared_page
          = boolToNat u.power_battery_charging ∧
        is_adapter_connected (OnBatteryChargingChanged u s).shared_page
          = is_adapter_connected s.shared_page ∧
        charge_level (OnBatteryChargingChanged u s).shared_page
          = charge_level s.shared_page := by
    intro u s
    have h := charging_bits s.shared_page.battery_state (u8 (boolToNat u.power_battery_charging))
    rw [boolToNat_mod_two] at h
    exact h
  have hC : ∀ (u : Ui) (s : PanelState),
      charge_level (OnBatteryLevelChanged u s).shared_page
          = u8 (u32OfInt (u.power_battery_level + 1)) % 8 ∧
        is_adapter_connected (OnBatteryLevelChanged u s).shared_page
          = is_adapter_connected s.shared_page ∧
        is_charging (OnBatteryLevelChanged u s).shared_page = is_charging s.shared_page := by
    intro u s
    exact level_bits s.shared_page.battery_state (u8 (u32OfInt (u.power_battery_level + 1)))
  refine ⟨⟨(hA ui st).1, (hA ui st).2.1, (hA ui st).2.2, rfl, rfl⟩,
    ⟨(hB ui st).1, (hB ui st).2.1, (hB ui st).2.2, rfl, rfl⟩,
    ⟨(hC ui st).1, (hC ui st).2.1, (hC ui st).2.2, rfl, rfl⟩, ?_⟩
  have a := hA scenarioUi st
  have b := hB scenarioUi (OnAdapterConnectedChanged scenarioUi st)
  have c := hC scenarioUi
    (OnBatteryChargingChanged scenarioUi (OnAdapterConnectedChanged scenarioUi st))
  refine ⟨a.1, a.2.1, a.2.2, ?_, b.1, ?_, ?_, ?_, ?_⟩
  · rw [b.2.1]; exact a.1
  · rw [b.2.2]; exact a.2.2
  · rw [c.2.1, b.2.1]; exact a.1
  · rw [c.2.2]; exact b.1
  · exact c.1

end Panel

section Mirror

open SharedPage ControlPanel

theorem u32_u32 (n : Nat) : u32 (u32 n) = u32 n := Nat.mod_mod _ _

theorem rd_wr_same (cmd : CmdBuf) (i v : Nat) : (cmd.wr i v).rd i = u32 v := by
  simp [CmdBuf.rd, CmdBuf.wr, u32_u32]

theorem rd_wr_other (cmd : CmdBuf) (i j v : Nat) (h : j ≠ i) : (cmd.wr i v).rd j = cmd.rd j := by
  simp [CmdBuf.rd, CmdBuf.wr, Function.update, h]

theorem u32_boolToNat (b : Bool) : u32 (boolToNat b) = boolToNat b := by
  cases b <;> rfl

theorem GetAdapterState_pushed (w : World) :
    (PTM.GetAdapterState w).world.cmd_buff.rd 2 = boolToNat w.settings.p_adapter_connected := by
  simp only [PTM.GetAdapterState, Outcome.built, RequestParser.new, RequestParser.MakeBuilder,
    RequestBuilder.PushResult, RequestBuilder.PushBool, RequestBuilder.pushWord]
  rw [rd_wr_same, u32_boolToNat]

theorem GetBatteryChargeState_pushed (w : World) :
    (PTM.GetBatteryChargeState w).world.cmd_buff.rd 2
      = boolToNat w.settings.p_battery_charging := by
  simp only [PTM.GetBatteryChargeState, Outcome.built, RequestParser.new,
    RequestParser.MakeBuilder, RequestBuilder.PushResult, RequestBuilder.PushBool,
    RequestBuilder.pushWord]
  rw [rd_wr_same, u32_boolToNat]

theorem GetBatteryLevel_pushed (w : World) :
    (PTM.GetBatteryLevel w).world.cmd_buff.rd 2 = u32 w.settings.p_battery_level := by
  simp only [PTM.GetBatteryLevel, Outcome.built, RequestParser.new, RequestParser.MakeBuilder,
    RequestBuilder.PushResult, RequestBuilder.PushU32, RequestBuilder.pushWord]
  rw [rd_wr_same, u32_u32]

theorem level_of_index (i : Int) (h0 : 0 ≤ i) (h4 : i ≤ 4) :
    u32OfInt (i + 1) = (i + 1).toNat ∧ 1 ≤ (i + 1).toNat ∧ (i + 1).toNat ≤ 5 := by
  interval_cases i <;> decide

/-- C9: after each slot of the control panel the shared-page field it wrote equals the
settings value it stored: the adapter and charging flags, the charge level `index + 1` (in
`1..5`) for every combo index in `0..4`, the wifi link level, and the network state
whenever `itns` returns one, which it does for every combo index in `0..3`; so the values
PTM `GetAdapterState`, `GetBatteryLevel` and `GetBatteryChargeState` push, which they read
from the settings, equal the shared page's `is_adapter_connected`, `charge_level` and
`is_charging`. -/
theorem shared_page_mirrors_settings (ui : Ui) (st : PanelState) (w : World)
    (hl : 0 ≤ ui.power_battery_level ∧ ui.power_battery_level ≤ 4) :
    (is_adapter_connected (OnAdapterConnectedChanged ui st).shared_page
        = boolToNat (OnAdapterConnectedChanged ui st).settings.p_adapter_connected ∧
      (PTM.GetAdapterState
          { w with settings := (OnAdapterConnectedChanged ui st).settings }).world.cmd_buff.rd 2
        = is_adapter_connected (OnAdapterConnectedChanged ui st).shared_page) ∧
    (is_charging (OnBatteryChargingChanged ui st).shared_page
        = boolToNat (OnBatteryChargingChanged ui st).settings.p_battery_charging ∧
      (PTM.GetBatteryChargeState
          { w with settings := (OnBatteryChargingChanged ui st).settings }).world.cmd_buff.rd 2
        = is_charging (OnBatteryChargingChanged ui st).shared_page) ∧
    (charge_level (OnBatteryLevelChanged ui st).shared_page
        = (OnBatteryLevelChanged ui st).settings.p_battery_level ∧
      (OnBatteryLevelChanged ui st).settings.p_battery_level
        = (ui.power_battery_level + 1).toNat ∧
      1 ≤ charge_level (OnBatteryLevelChanged ui st).shared_page ∧
      charge_level (OnBatteryLevelChanged ui st).shared_page ≤ 5 ∧
      (PTM.GetBatteryLevel
          { w with settings := (OnBatteryLevelChanged ui st).settings }).world.cmd_buff.rd 2
        = charge_level (OnBatteryLevelChanged ui st).shared_page) ∧
    ((OnWifiLinkLevelChanged ui st).shared_page.wifi_link_level
        = (OnWifiLinkLevelChanged ui st).settings.n_wifi_link_level) ∧
    (∀ st1, OnNetworkStateChanged ui st = some st1 →
      st1.shared_page.network_state = st1.settings.n_state) ∧
    (0 ≤ ui.network_state ∧ ui.network_state ≤ 3 →
      ∃ st1, OnNetworkStateChanged ui st = some st1 ∧
        some st1.settings.n_state = itns ui.network_state) := by
  have hA := (adapter_bits st.shared_page.battery_state
    (u8 (boolToNat ui.power_adapter_connected))).1
  rw [boolToNat_mod_two] at hA
  have hB := (charging_bits st.shared_page.battery_state
    (u8 (boolToNat ui.power_battery_charging))).1
  rw [boolToNat_mod_two] at hB
  have hC := (level_bits st.shared_page.battery_state
    (u8 (u32OfInt (ui.power_battery_level + 1)))).1
  obtain ⟨hv, h1, h5⟩ := level_of_index ui.power_battery_level hl.1 hl.2
  have hC1 : charge_level (OnBatteryLevelChanged ui st).shared_page
      = (ui.power_battery_level + 1).toNat := by
    show Value 2 3 (Assign 2 3 st.shared_page.battery_state
      (u8 (u32OfInt (ui.power_battery_level + 1)))) = _
    rw [hC, hv]
    unfold u8
    omega
  have hS : (OnBatteryLevelChanged ui st).settings.p_battery_level
      = (ui.power_battery_level + 1).toNat := hv
  refine ⟨⟨hA, ?_⟩, ⟨hB, ?_⟩, ⟨?_, hS, ?_, ?_, ?_⟩, rfl, ?_, ?_⟩
  · rw [GetAdapterState_pushed]; exact hA.symm
  · rw [GetBatteryChargeState_pushed]; exact hB.symm
  · rw [hC1, hS]
  · rw [hC1]; exact h1
  · rw [hC1]; exact h5
  · rw [GetBatteryLevel_pushed, hC1]
    show u32 (u32OfInt (ui.power_battery_level + 1)) = _
    rw [hv]
    unfold u32
    omega
  · intro st1 h
    unfold OnNetworkStateChanged at h
    cases hi : itns ui.network_state with
    | none => simp [hi] at h
    | some v =>
      simp only [hi, Option.some.injEq] at h
      rw [← h]
  · intro hn
    obtain ⟨h0, h3⟩ := hn
    have hcases : ui.network_state = 0 ∨ ui.network_state = 1 ∨ ui.network_state = 2 ∨
        ui.network_state = 3 := by omega
    rcases hcases with h | h | h | h <;>
      simp [OnNetworkStateChanged, itns, h]

/-- C9 at a concrete panel: level combo on index 2. -/
theorem shared_page_mirrors_settings_witness :
    (0 ≤ scenarioUi.power_battery_level ∧ scenarioUi.power_battery_level ≤ 4) ∧
    charge_level (OnBatteryLevelChanged scenarioUi samplePanel).shared_page = 3 ∧
    (OnBatteryLevelChanged scenarioUi samplePanel).settings.p_battery_level = 3 ∧
    charge_level (OnBatteryLevelChanged scenarioUi samplePanel).shared_page
      = (OnBatteryLevelChanged scenarioUi samplePanel).settings.p_battery_level ∧
    (PTM.GetBatteryLevel
        { worldOf sampleCmd with
          settings := (OnBatteryLevelChanged scenarioUi samplePanel).settings }).world.cmd_buff.rd 2
      = charge_level (OnBatteryLevelChanged scenarioUi samplePanel).shared_page :=
  ⟨by decide, by decide, by decide,
    (shared_page_mirrors_settings scenarioUi samplePanel (worldOf sampleCmd)
      (by decide)).2.2.1.1,
    (shared_page_mirrors_settings scenarioUi samplePanel (worldOf sampleCmd)
      (by decide)).2.2.1.2.2.2.2⟩

end Mirror

/-- C7: every handler of `frd.cpp` and `ptm.cpp` that makes a request builder pushes exactly
the `normal_word_count + translate_word_count` words it declared to `MakeBuilder`, except
`ConfigureNew3DSCPU`: it declares `MakeBuilder(2, 0)` and, on every request, returns after
a single one-word push (the `ResultCode` of `KernelSetState`). -/
theorem ConfigureNew3DSCPU_pushes_one_word_of_two :
    (∀ (sz : TypeSizes) (h : Handler) (w : World) (rb : RequestBuilder),
      h ≠ Handler.PTM_ConfigureNew3DSCPU → (h.run sz w).rb = some rb →
      rb.normal_pushed + rb.translate_pushed = rb.normal_params + rb.translate_params) ∧
    (∀ w : World, ∃ rb : RequestBuilder,
      (PTM.ConfigureNew3DSCPU w).status = Status.returned ∧
      (PTM.ConfigureNew3DSCPU w).rb = some rb ∧
      rb.normal_params + rb.translate_params = 2 ∧
      rb.normal_pushed + rb.translate_pushed = 1 ∧
      rb.pushes = [PushKind.ResultCode]) := by
  constructor
  · intro sz h w rb hne hrb
    cases h <;>
      simp only [Handler.run, FRD.GetMyPresence, FRD.GetMyPreference, FRD.GetFriendKeyList,
        FRD.GetFriendProfile, FRD.GetFriendAttributeFlags, FRD.HasLoggedIn, FRD.IsOnline,
        FRD.Login, FRD.Logout, FRD.GetMyFriendKey, FRD.GetMyScreenName, FRD.GetMyProfile,
        FRD.GetMyMii, FRD.GetMyPlayingGame, FRD.GetMyFavoriteGame, FRD.GetMyComment,
        FRD.IsValidFriendCode, FRD.UnscrambleLocalFriendCode, FRD.SetClientSdkVersion,
        PTM.GetAdapterState, PTM.GetShellState, PTM.GetBatteryLevel, PTM.GetBatteryChargeState,
        PTM.GetPedometerState, PTM.GetStepHistory, PTM.GetTotalStepCount,
        PTM.GetSoftwareClosedFlag, PTM.CheckNew3DS, PTM.CheckNew3DS.helper,
        RequestParser.new, RequestParser.PopU32, RequestParser.PopU64, RequestParser.PopU8,
        RequestParser.PopStaticBuffer, RequestParser.PopMappedBuffer,
        RequestParser.PeekStaticBuffer, RequestParser.advanceNormal,
        RequestParser.advanceTranslate, Except.map] at hrb
    all_goals first
      | exact absurd rfl hne
      | (simp only [Outcome.raw, Outcome.assertFailed, Outcome.parseFailed, Outcome.built,
            Nat.zero_add, Nat.reduceAdd, Nat.reduceLeDiff, Nat.le_refl, if_true] at hrb
         repeat' split at hrb
         all_goals (cases hrb <;> rfl))
  · intro w
    exact ⟨_, rfl, rfl, rfl, rfl, rfl⟩

theorem storeByte_other (c : CmdBuf) (k b i : Nat) (h : i ≠ k / 4) :
    (c.storeByte k b) i = c i := by
  simp [CmdBuf.storeByte, Function.update, h]

theorem foldl_storeByte_below (word : Nat) (src : Nat → Nat) (i : Nat) (h : i < word) :
    ∀ (l : List Nat) (c : CmdBuf),
      (l.foldl (fun c j => CmdBuf.storeByte c (4 * word + j) (src j)) c) i = c i := by
  intro l
  induction l with
  | nil => intro c; rfl
  | cons j t ih =>
    intro c
    rw [List.foldl_cons, ih, storeByte_other]
    omega

theorem memcpy_below (c : CmdBuf) (word : Nat) (src : Nat → Nat) (n i : Nat) (h : i < word) :
    (c.memcpy word src n) i = c i :=
  foldl_storeByte_below word src i h _ c

theorem memcpy_rd_one (c : CmdBuf) (src : Nat → Nat) (n : Nat) :
    (c.memcpy 2 src n).rd 1 = c.rd 1 := by
  unfold CmdBuf.rd
  rw [memcpy_below c 2 src n 1 (by norm_num)]

theorem copy16_rd_one (c : CmdBuf) (str : List Nat) (n : Nat) :
    (c.copy16 2 str n).rd 1 = c.rd 1 := by
  unfold CmdBuf.copy16
  exact memcpy_rd_one _ _ _

theorem u32_success : u32 RESULT_SUCCESS = RESULT_SUCCESS := rfl

/-- The `ResultCode` a handler leaves in word 1 when it returns. -/
theorem word_one_of_returned (sz : TypeSizes) (h : Handler) (w : World)
    (hret : (h.run sz w).status = Status.returned) :
    (h.run sz w).world.cmd_buff.rd 1 =
      if h = Handler.PTM_ConfigureNew3DSCPU then
        u32 (w.kernel_set_state (u8 (w.cmd_buff.rd 1) &&& 0xF))
      else RESULT_SUCCESS := by
  cases h <;>
    simp only [Handler.run, FRD.GetMyPresence, FRD.GetMyPreference, FRD.GetFriendKeyList,
      FRD.GetFriendProfile, FRD.GetFriendAttributeFlags, FRD.HasLoggedIn, FRD.IsOnline,
      FRD.Login, FRD.Logout, FRD.GetMyFriendKey, FRD.GetMyScreenName, FRD.GetMyProfile,
      FRD.GetMyMii, FRD.GetMyPlayingGame, FRD.GetMyFavoriteGame, FRD.GetMyComment,
      FRD.IsValidFriendCode, FRD.UnscrambleLocalFriendCode, FRD.SetClientSdkVersion,
      PTM.GetAdapterState, PTM.GetShellState, PTM.GetBatteryLevel, PTM.GetBatteryChargeState,
      PTM.GetPedometerState, PTM.GetStepHistory, PTM.GetTotalStepCount,
      PTM.GetSoftwareClosedFlag, PTM.ConfigureNew3DSCPU, PTM.CheckNew3DS,
      PTM.CheckNew3DS.helper,
      RequestParser.new, RequestParser.PopU32, RequestParser.PopU64, RequestParser.PopU8,
      RequestParser.PopStaticBuffer, RequestParser.PopMappedBuffer,
      RequestParser.PeekStaticBuffer, RequestParser.advanceNormal,
      RequestParser.advanceTranslate, Except.map,
      Nat.zero_add, Nat.reduceAdd, Nat.reduceLeDiff, Nat.le_refl, if_true] at hret ⊢
  all_goals
    simp only [Outcome.raw, Outcome.assertFailed, Outcome.parseFailed, Outcome.built,
      RequestParser.MakeBuilder, RequestBuilder.PushResult, RequestBuilder.PushU32,
      RequestBuilder.PushU16, RequestBuilder.PushU8, RequestBuilder.PushBool,
      RequestBuilder.PushStaticBuffer, RequestBuilder.PushMappedBuffer,
      RequestBuilder.pushWord, RequestBuilder.pushPair, reduceCtorEq, if_false, if_true]
      at hret ⊢
  all_goals first
    | (simp [rd_wr_same, rd_wr_other, memcpy_rd_one, copy16_rd_one, u32_success]; done)
    | (split_ifs at hret ⊢ <;>
        first
          | (cases hret; done)
          | simp [rd_wr_same, rd_wr_other, memcpy_rd_one, copy16_rd_one, u32_success])

theorem first_push_is_result (sz : TypeSizes) (h : Handler) (w : World) (rb : RequestBuilder)
    (hrb : (h.run sz w).rb = some rb) :
    rb.pushes.head? = some PushKind.ResultCode ∧ (h.run sz w).world.cmd_buff = rb.cmd_buf := by
  cases h <;>
    simp only [Handler.run, FRD.GetMyPresence, FRD.GetMyPreference, FRD.GetFriendKeyList,
      FRD.GetFriendProfile, FRD.GetFriendAttributeFlags, FRD.HasLoggedIn, FRD.IsOnline,
      FRD.Login, FRD.Logout, FRD.GetMyFriendKey, FRD.GetMyScreenName, FRD.GetMyProfile,
      FRD.GetMyMii, FRD.GetMyPlayingGame, FRD.GetMyFavoriteGame, FRD.GetMyComment,
      FRD.IsValidFriendCode, FRD.UnscrambleLocalFriendCode, FRD.SetClientSdkVersion,
      PTM.GetAdapterState, PTM.GetShellState, PTM.GetBatteryLevel, PTM.GetBatteryChargeState,
      PTM.GetPedometerState, PTM.GetStepHistory, PTM.GetTotalStepCount,
      PTM.GetSoftwareClosedFlag, PTM.ConfigureNew3DSCPU, PTM.CheckNew3DS,
      PTM.CheckNew3DS.helper,
      RequestParser.new, RequestParser.PopU32, RequestParser.PopU64, RequestParser.PopU8,
      RequestParser.PopStaticBuffer, RequestParser.PopMappedBuffer,
      RequestParser.PeekStaticBuffer, RequestParser.advanceNormal,
      RequestParser.advanceTranslate, Except.map,
      Outcome.raw, Outcome.assertFailed, Outcome.parseFailed, Outcome.built,
      Nat.zero_add, Nat.reduceAdd, Nat.reduceLeDiff, Nat.le_refl, if_true] at hrb ⊢
  all_goals first
    | (cases hrb; done)
    | (cases hrb; exact ⟨rfl, rfl⟩)
    | (split_ifs at hrb ⊢ <;> first | (cases hrb; done) | (cases hrb; exact ⟨rfl, rfl⟩))

/-- C8: a handler of `frd.cpp` or `ptm.cpp` that returns has written a `ResultCode` into
command-buffer word 1.  If it made a request builder, the first `Push` on it is the
`ResultCode` push (also through the `CheckNew3DS` helper and in `ConfigureNew3DSCPU`) and
the response is the builder's buffer; if it works on the raw buffer, word 1 holds
`RESULT_SUCCESS`.  Word 1 is `RESULT_SUCCESS` for every handler but `ConfigureNew3DSCPU`,
where it is the result of `KernelSetState`. -/
theorem returning_handler_wrote_result_code (sz : TypeSizes) (h : Handler) (w : World)
    (hret : (h.run sz w).status = Status.returned) :
    (∀ rb, (h.run sz w).rb = some rb →
      rb.pushes.head? = some PushKind.ResultCode ∧
        (h.run sz w).world.cmd_buff = rb.cmd_buf) ∧
    ((h.run sz w).rb = none → (h.run sz w).world.cmd_buff.rd 1 = RESULT_SUCCESS) ∧
    (h.run sz w).world.cmd_buff.rd 1 =
      (if h = Handler.PTM_ConfigureNew3DSCPU then
        u32 (w.kernel_set_state (u8 (w.cmd_buff.rd 1) &&& 0xF))
      else RESULT_SUCCESS) := by
  refine ⟨?_, ?_, word_one_of_returned sz h w hret⟩
  · intro rb hrb
    exact first_push_is_result sz h w rb hrb
  · intro hnone
    rw [word_one_of_returned sz h w hret]
    by_cases hc : h = Handler.PTM_ConfigureNew3DSCPU
    · subst hc
      exact absurd hnone (by simp [Handler.run, PTM.ConfigureNew3DSCPU, RequestParser.new,
        RequestParser.PopU8, RequestParser.advanceNormal, Except.map, Outcome.built])
    · rw [if_neg hc]

/-- C8 at concrete requests: `GetFriendKeyList` on a well-sized request, a raw-buffer
handler, returns with `RESULT_SUCCESS` in word 1. -/
theorem returning_handler_wrote_result_code_witness :
    (Handler.FRD_GetFriendKeyList.run sampleSizes (worldOf sampleCmd)).status
      = Status.returned ∧
    (Handler.FRD_GetFriendKeyList.run sampleSizes (worldOf sampleCmd)).rb = none ∧
    (Handler.FRD_GetFriendKeyList.run sampleSizes (worldOf sampleCmd)).world.cmd_buff.rd 1
      = RESULT_SUCCESS :=
  ⟨by decide, rfl,
    (returning_handler_wrote_result_code sampleSizes Handler.FRD_GetFriendKeyList
      (worldOf sampleCmd) (by decide)).2.1 rfl⟩

/-- C10: in every handler of `frd.cpp` and `ptm.cpp` the words popped from the request
parser stay within the counts declared to its constructor: the handler never stops with
`BufferOverrun`, and the parser it leaves behind has popped at most the declared number of
normal words and at most the declared number of translate words.  `GetStepHistory`
declares `(3, 2)` and pops exactly 3 normal words (`u32`, `u64`) and 2 translate words (one
mapped buffer). -/
theorem pops_within_declared_counts (sz : TypeSizes) (h : Handler) (w : World) :
    (h.run sz w).status ≠ Status.failed Fault.BufferOverrun ∧
    (∀ rp, (h.run sz w).rp = some rp →
      rp.normal_popped ≤ rp.normal_params ∧ rp.translate_popped ≤ rp.translate_params) ∧
    (∀ rp, (PTM.GetStepHistory w).rp = some rp →
      rp.normal_params = 3 ∧ rp.translate_params = 2 ∧
      rp.normal_popped = 3 ∧ rp.translate_popped = 2) := by
  refine ⟨?_, ?_, ?_⟩
  · cases h <;>
      simp only [Handler.run, FRD.GetMyPresence, FRD.GetMyPreference, FRD.GetFriendKeyList,
        FRD.GetFriendProfile, FRD.GetFriendAttributeFlags, FRD.HasLoggedIn, FRD.IsOnline,
        FRD.Login, FRD.Logout, FRD.GetMyFriendKey, FRD.GetMyScreenName, FRD.GetMyProfile,
        FRD.GetMyMii, FRD.GetMyPlayingGame, FRD.GetMyFavoriteGame, FRD.GetMyComment,
        FRD.IsValidFriendCode, FRD.UnscrambleLocalFriendCode, FRD.SetClientSdkVersion,
        PTM.GetAdapterState, PTM.GetShellState, PTM.GetBatteryLevel, PTM.GetBatteryChargeState,
        PTM.GetPedometerState, PTM.GetStepHistory, PTM.GetTotalStepCount,
        PTM.GetSoftwareClosedFlag, PTM.ConfigureNew3DSCPU, PTM.CheckNew3DS,
        PTM.CheckNew3DS.helper,
        RequestParser.new, RequestParser.PopU32, RequestParser.PopU64, RequestParser.PopU8,
        RequestParser.PopStaticBuffer, RequestParser.PopMappedBuffer,
        RequestParser.PeekStaticBuffer, RequestParser.advanceNormal,
        RequestParser.advanceTranslate, Except.map,
        Outcome.raw, Outcome.assertFailed, Outcome.parseFailed, Outcome.built,
        Nat.zero_add, Nat.reduceAdd, Nat.reduceLeDiff, Nat.le_refl, if_true]
    all_goals first
      | (intro hc; cases hc)
      | (split_ifs <;> (intro hc; cases hc))
  · intro rp hrp
    cases h <;>
      simp only [Handler.run, FRD.GetMyPresence, FRD.GetMyPreference, FRD.GetFriendKeyList,
        FRD.GetFriendProfile, FRD.GetFriendAttributeFlags, FRD.HasLoggedIn, FRD.IsOnline,
        FRD.Login, FRD.Logout, FRD.GetMyFriendKey, FRD.GetMyScreenName, FRD.GetMyProfile,
        FRD.GetMyMii, FRD.GetMyPlayingGame, FRD.GetMyFavoriteGame, FRD.GetMyComment,
        FRD.IsValidFriendCode, FRD.UnscrambleLocalFriendCode, FRD.SetClientSdkVersion,
        PTM.GetAdapterState, PTM.GetShellState, PTM.GetBatteryLevel, PTM.GetBatteryChargeState,
        PTM.GetPedometerState, PTM.GetStepHistory, PTM.GetTotalStepCount,
        PTM.GetSoftwareClosedFlag, PTM.ConfigureNew3DSCPU, PTM.CheckNew3DS,
        PTM.CheckNew3DS.helper,
        RequestParser.new, RequestParser.PopU32, RequestParser.PopU64, RequestParser.PopU8,
        RequestParser.PopStaticBuffer, RequestParser.PopMappedBuffer,
        RequestParser.PeekStaticBuffer, RequestParser.advanceNormal,
        RequestParser.advanceTranslate, Except.map,
        Outcome.raw, Outcome.assertFailed, Outcome.parseFailed, Outcome.built,
        Nat.zero_add, Nat.reduceAdd, Nat.reduceLeDiff, Nat.le_refl, if_true] at hrp
    all_goals first
      | (cases hrp <;> simp)
      | (split_ifs at hrp <;> (cases hrp; simp))
  · intro rp hrp
    simp only [PTM.GetStepHistory, RequestParser.new, RequestParser.PopU32,
      RequestParser.PopU64, RequestParser.PopMappedBuffer, RequestParser.advanceNormal,
      RequestParser.advanceTranslate, Except.map, Outcome.assertFailed, Outcome.built,
      Nat.zero_add, Nat.reduceAdd, Nat.reduceLeDiff, Nat.le_refl, if_true] at hrp
    split_ifs at hrp <;> (cases hrp; exact ⟨rfl, rfl, rfl, rfl⟩)

theorem GetFriendKeyList_words (sz : TypeSizes) (w : World)
    (h : (FRD.GetFriendKeyList sz w).status = Status.returned) :
    (FRD.GetFriendKeyList sz w).world.cmd_buff.rd 1 = RESULT_SUCCESS ∧
    (FRD.GetFriendKeyList sz w).world.cmd_buff.rd 2 = u32 w.friends_size := by
  simp only [FRD.GetFriendKeyList] at h ⊢
  by_cases hsz : w.cmd_buff.rd 64 >>> 14 = size_t (sz.FriendKey * w.cmd_buff.rd 2)
  · simp only [hsz, if_true, Outcome.raw]
    constructor
    · rw [rd_wr_other _ _ _ _ (by norm_num), rd_wr_same]
      rfl
    · rw [rd_wr_same]
  · simp [hsz, Outcome.assertFailed] at h

/-- C11: with `sizeof(FriendKey)` below `2 ^ 32`, whenever `GetFriendKeyList` returns (its
size check passed), for `offset` = word 1, `frd_count` = word 2 and a friend list of length
`n`: the writes to guest memory are, in order, one for each list index `i` with `offset <= i
< min(frd_count, n)`, and the write for index `i` copies `friends[i]`, `sizeof(FriendKey)`
bytes of it, to `i * sizeof(FriendKey)` bytes from the output address (slot `i`, not slot
`i - offset`); their number is `min(frd_count, n) - offset`, which is zero when `offset >=
n`; and on return word 1 is `RESULT_SUCCESS` and word 2 is `n` (as a 32-bit word). -/
theorem GetFriendKeyList_writes_keys_in_their_slots (sz : TypeSizes) (w : World)
    (hFK : sz.FriendKey < 2 ^ 32)
    (hret : (FRD.GetFriendKeyList sz w).status = Status.returned) :
    (FRD.GetFriendKeyList sz w).writes =
      (List.range' (w.cmd_buff.rd 1)
          (min (w.cmd_buff.rd 2) w.friends_size - w.cmd_buff.rd 1)).map
        (fun i => { addr := u32 (w.cmd_buff.rd 65 + i * sz.FriendKey), len := sz.FriendKey,
                    src := WriteSource.friend i }) ∧
    (FRD.GetFriendKeyList sz w).writes.length
      = min (w.cmd_buff.rd 2) w.friends_size - w.cmd_buff.rd 1 ∧
    (∀ wr ∈ (FRD.GetFriendKeyList sz w).writes, ∃ i,
      w.cmd_buff.rd 1 ≤ i ∧ i < min (w.cmd_buff.rd 2) w.friends_size ∧
      wr.src = WriteSource.friend i ∧
      wr.addr = u32 (w.cmd_buff.rd 65 + i * sz.FriendKey) ∧ wr.len = sz.FriendKey) ∧
    (∀ i, w.cmd_buff.rd 1 ≤ i → i < min (w.cmd_buff.rd 2) w.friends_size →
      ({ addr := u32 (w.cmd_buff.rd 65 + i * sz.FriendKey), len := sz.FriendKey,
         src := WriteSource.friend i } : MemWrite)
        ∈ (FRD.GetFriendKeyList sz w).writes) ∧
    (∀ wr ∈ (FRD.GetFriendKeyList sz w).writes, ∀ i, wr.src = WriteSource.friend i →
      wr.addr = u32 (w.cmd_buff.rd 65 + i * sz.FriendKey)) ∧
    (w.friends_size ≤ w.cmd_buff.rd 1 → (FRD.GetFriendKeyList sz w).writes = []) ∧
    (FRD.GetFriendKeyList sz w).world.cmd_buff.rd 1 = RESULT_SUCCESS ∧
    (FRD.GetFriendKeyList sz w).world.cmd_buff.rd 2 = u32 w.friends_size ∧
    (w.friends_size < 2 ^ 32 →
      (FRD.GetFriendKeyList sz w).world.cmd_buff.rd 2 = w.friends_size) := by
  have hlen : min (w.cmd_buff.rd 2 - w.cmd_buff.rd 1) (w.friends_size - w.cmd_buff.rd 1)
      = min (w.cmd_buff.rd 2) w.friends_size - w.cmd_buff.rd 1 := by omega
  have hw : (FRD.GetFriendKeyList sz w).writes =
      (List.range' (w.cmd_buff.rd 1)
          (min (w.cmd_buff.rd 2) w.friends_size - w.cmd_buff.rd 1)).map
        (fun i => { addr := u32 (w.cmd_buff.rd 65 + i * sz.FriendKey), len := sz.FriendKey,
                    src := WriteSource.friend i }) := by
    rw [GetFriendKeyList_writes sz w hret, hlen]
    apply List.map_congr_left
    intro i hi
    rw [List.mem_range'_1] at hi
    have hlt : i < w.cmd_buff.rd 2 := by omega
    rw [elem_addr _ _ _ (lt_trans hlt (rd_lt _ _)) hFK]
  obtain ⟨h1, h2⟩ := GetFriendKeyList_words sz w hret
  refine ⟨hw, ?_, ?_, ?_, ?_, ?_, h1, h2, ?_⟩
  · rw [hw, List.length_map, List.length_range']
  · intro wr hwr
    rw [hw, List.mem_map] at hwr
    obtain ⟨i, hi, rfl⟩ := hwr
    rw [List.mem_range'_1] at hi
    exact ⟨i, hi.1, by omega, rfl, rfl, rfl⟩
  · intro i hlo hhi
    rw [hw, List.mem_map]
    exact ⟨i, by rw [List.mem_range'_1]; omega, rfl⟩
  · intro wr hwr i hsrc
    rw [hw, List.mem_map] at hwr
    obtain ⟨k, _, rfl⟩ := hwr
    have hk : k = i := WriteSource.friend.inj hsrc
    rw [← hk]
  · intro hn
    have h0 : min (w.cmd_buff.rd 2) w.friends_size - w.cmd_buff.rd 1 = 0 := by omega
    rw [hw, h0]
    rfl
  · intro hn
    rw [h2]
    exact u32_of_lt hn

/-- C11 at a concrete request: offset 1, 3 keys asked, two friends: exactly `friends[1]`
is written, into slot 1 (16 bytes into the buffer at `0x1000`), and word 2 reports 2. -/
theorem GetFriendKeyList_writes_keys_in_their_slots_witness :
    (sampleSizes.FriendKey < 2 ^ 32 ∧
      (FRD.GetFriendKeyList sampleSizes (worldOf sampleCmd)).status = Status.returned) ∧
    (FRD.GetFriendKeyList sampleSizes (worldOf sampleCmd)).writes
      = [{ addr := 0x1010, len := 16, src := WriteSource.friend 1 }] ∧
    (FRD.GetFriendKeyList sampleSizes (worldOf sampleCmd)).writes.length
      = min ((worldOf sampleCmd).cmd_buff.rd 2) (worldOf sampleCmd).friends_size
          - (worldOf sampleCmd).cmd_buff.rd 1 ∧
    (FRD.GetFriendKeyList sampleSizes (worldOf sampleCmd)).world.cmd_buff.rd 1
      = RESULT_SUCCESS ∧
    (FRD.GetFriendKeyList sampleSizes (worldOf sampleCmd)).world.cmd_buff.rd 2 = 2 :=
  ⟨⟨by decide, by decide⟩, by decide,
    (GetFriendKeyList_writes_keys_in_their_slots sampleSizes (worldOf sampleCmd)
      (by decide) (by decide)).2.1,
    (GetFriendKeyList_writes_keys_in_their_slots sampleSizes (worldOf sampleCmd)
      (by decide) (by decide)).2.2.2.2.2.2.1,
    (GetFriendKeyList_writes_keys_in_their_slots sampleSizes (worldOf sampleCmd)
      (by decide) (by decide)).2.2.2.2.2.2.2.2 (by decide)⟩

section NetworkState

open ControlPanel

set_option maxRecDepth 100000 in
theorem nsti_range_and_back : ∀ s : Nat, s < 256 → 0 ≤ nsti s ∧ nsti s ≤ 3 ∧
    (itns (nsti s) = some s ↔ s = 0 ∨ s = 2 ∨ s = 3 ∨ s = 7) := by
  decide

/-- C12: the network-state mappings of the control panel round-trip on the combo box's
range.  For the indices 0, 1, 2, 3 `itns` returns 0, 7, 3, 2 and `nsti` maps that value
back to the index; for any index outside `0..3` `itns` returns no value; and for every
8-bit state `s`, `nsti s` lies in `0..3`, and `itns (nsti s)` is `s` exactly when `s` is one
of 0, 2, 3, 7. -/
theorem network_state_mappings_round_trip :
    (itns 0 = some 0 ∧ itns 1 = some 7 ∧ itns 2 = some 3 ∧ itns 3 = some 2) ∧
    (∀ index : Int, 0 ≤ index → index ≤ 3 →
      ∃ s, itns index = some s ∧ s < 256 ∧ nsti s = index) ∧
    (∀ index : Int, (index < 0 ∨ 3 < index) → itns index = none) ∧
    (∀ s : Nat, s < 256 → 0 ≤ nsti s ∧ nsti s ≤ 3 ∧
      (itns (nsti s) = some s ↔ s = 0 ∨ s = 2 ∨ s = 3 ∨ s = 7)) := by
  refine ⟨⟨rfl, rfl, rfl, rfl⟩, ?_, ?_, nsti_range_and_back⟩
  · intro index h0 h3
    have hc : index = 0 ∨ index = 1 ∨ index = 2 ∨ index = 3 := by omega
    rcases hc with h | h | h | h <;> subst h
    · exact ⟨0, rfl, by decide, rfl⟩
    · exact ⟨7, rfl, by decide, rfl⟩
    · exact ⟨3, rfl, by decide, rfl⟩
    · exact ⟨2, rfl, by decide, rfl⟩
  · intro index h
    unfold itns
    split <;> first | omega | rfl

end NetworkState

end Citra
